import Mathlib

/-!
Verification development for the OrderKuota-Wrapper repository.

The TypeScript sources are embedded shallowly:

* JavaScript strings are modelled as lists of UTF-16 code units
  (`List Nat`), so that `charCodeAt`, `length`, `slice`, `indexOf`,
  `includes` and friends have their exact JavaScript meaning.
* JavaScript numbers that hold currency amounts are modelled as `ℚ`
  (the claims are about exact integer/decimal behaviour; binary
  floating-point formatting artefacts are out of scope and noted
  where relevant).
* The 32-bit signed wrap-around of JavaScript bitwise operators is
  modelled by explicit `% 4294967296` reductions.
* `async` methods that perform HTTP or QR-library calls take the
  outcome of that external call as an explicit oracle argument and
  are otherwise translated faithfully; fallible code returns
  `Except`.
* Methods of the two client classes are modelled as explicit state
  transformers returning the (possibly updated) instance, so that
  frame properties about `readonly` fields are expressible.
-/

/-! ## JavaScript string primitives -/

/-- UTF-16 code units of one Unicode scalar, as produced by JavaScript
`charCodeAt` (astral characters become a surrogate pair). -/
def utf16CodeUnits (c : Char) : List Nat :=
  if c.toNat < 65536 then [c.toNat]
  else [55296 + (c.toNat - 65536) / 1024, 56320 + (c.toNat - 65536) % 1024]

/-- A Lean string literal as a JavaScript string (list of UTF-16 code units). -/
def jstr (s : String) : List Nat :=
  (s.data.map utf16CodeUnits).flatten

/-- JavaScript `String.prototype.padStart(n, c)` for a single pad character. -/
def padStart (l : List Nat) (n : Nat) (c : Nat) : List Nat :=
  List.replicate (n - l.length) c ++ l

/-- Index of the first occurrence of `pat` in `l`
(JavaScript `String.prototype.indexOf`, with `-1` modelled as `none`). -/
def firstOccur (pat : List Nat) : List Nat → Option Nat
  | [] => if pat.isPrefixOf ([] : List Nat) then some 0 else none
  | a :: t =>
    if pat.isPrefixOf (a :: t) then some 0
    else (firstOccur pat t).map (· + 1)

/-- JavaScript `String.prototype.includes`. -/
def jsIncludes (l pat : List Nat) : Bool :=
  (firstOccur pat l).isSome

/-- JavaScript `String.prototype.replace` with a plain-string pattern:
replaces only the first occurrence. -/
def replaceFirst (pat rep : List Nat) : List Nat → List Nat
  | [] => if pat.isPrefixOf ([] : List Nat) then rep ++ List.drop pat.length [] else []
  | a :: t =>
    if pat.isPrefixOf (a :: t) then rep ++ (a :: t).drop pat.length
    else a :: replaceFirst pat rep t

/-- Decimal digits of `n`, most significant first, as UTF-16 code units
(plain positional rendering, no exponent notation).  Structural fuel
keeps the definition kernel-computable. -/
def natDecimalAux : Nat → Nat → List Nat
  | 0, _ => []
  | fuel + 1, n =>
    if n < 10 then [48 + n]
    else natDecimalAux fuel (n / 10) ++ [48 + n % 10]

/-- Plain decimal rendering of a natural number. -/
def natDecimal (n : Nat) : List Nat :=
  natDecimalAux (n + 1) n

/-- `Number.prototype.toString()` on a non-negative integral value, per
the ECMAScript `Number::toString` algorithm: plain decimal while the
digit count is at most 21 (i.e. below `10^21`), and from `10^21` on the
exponent form `d.ddd…e+k` where the significand is the digit string
with trailing zeros stripped and `k` is the digit count minus one
(`(1e21).toString()` is `"1e+21"`). -/
def jsNumToString (n : Nat) : List Nat :=
  if n < 10 ^ 21 then natDecimal n
  else
    let digits := natDecimal n
    let s := (digits.reverse.dropWhile (· == 48)).reverse
    match s with
    | [] => digits
    | d0 :: srest =>
      (if srest.isEmpty then [d0] else d0 :: 46 :: srest)
        ++ jstr "e+" ++ natDecimal (digits.length - 1)

/-- Reads a list of decimal digit code units back as a number. -/
def digitsToNat (l : List Nat) : Nat :=
  l.foldl (fun a c => 10 * a + (c - 48)) 0

/-- Uppercase hexadecimal digit for `d < 16`
(composition of `toString(16)` and `toUpperCase`). -/
def hexU (d : Nat) : Nat :=
  if d < 10 then 48 + d else 55 + d

/-- Hexadecimal digits of `n`, most significant first, uppercase,
no leading zeros. Models `n.toString(16).toUpperCase()`. -/
def natHexAux : Nat → Nat → List Nat
  | 0, _ => []
  | fuel + 1, n =>
    if n < 16 then [hexU n]
    else natHexAux fuel (n / 16) ++ [hexU (n % 16)]

/-- Uppercase hexadecimal rendering of a natural number. -/
def natHexU (n : Nat) : List Nat :=
  natHexAux (n + 1) n

/-! ## CRC16 (code side)

Direct translation of the private method `calculateCRC16` of
`src/OrderKuota.ts`.  JavaScript `<<` operates on 32-bit integers, so
each shift is reduced `% 2^32`; the source masks the register with
`crc &= 0xFFFF` once per character.  (The `crc ^= c << 8` step needs no
reduction: both operands stay below `2^24`.) -/

/-- One iteration of the inner bit loop of `calculateCRC16`:
`crc = (crc & 0x8000) ? ((crc << 1) ^ 0x1021) : (crc << 1)`. -/
def jsBit (crc : Nat) : Nat :=
  if crc &&& 0x8000 ≠ 0 then ((crc <<< 1) % 4294967296) ^^^ 0x1021
  else (crc <<< 1) % 4294967296

/-- Processing of one character in `calculateCRC16`:
XOR in the code unit shifted left by 8, run the bit loop eight times,
then `crc &= 0xFFFF`. -/
def jsCrcChar (crc c : Nat) : Nat :=
  (jsBit^[8] (crc ^^^ (c <<< 8))) &&& 0xFFFF

/-- The CRC register produced by the loop of `calculateCRC16`,
starting from `0xFFFF`. -/
def crc16 (l : List Nat) : Nat :=
  l.foldl jsCrcChar 0xFFFF

/-! ## CRC16 (specification side)

The spec sentence: "Compute CRC16-CCITT (poly `0x1021`, init `0xFFFF`,
no final XOR) over the resulting string and append it as 4 uppercase
hex digits."  This is the textbook MSB-first CRC on a 16-bit register. -/

/-- One MSB-first step of the textbook CRC16-CCITT on a 16-bit register. -/
def refBit (crc : Nat) : Nat :=
  if crc &&& 0x8000 ≠ 0 then ((crc <<< 1) ^^^ 0x1021) % 65536
  else (crc <<< 1) % 65536

/-- Textbook absorption of one input code unit into the 16-bit register. -/
def refChar (crc c : Nat) : Nat :=
  refBit^[8] ((crc ^^^ (c <<< 8)) % 65536)

/-- Textbook CRC16-CCITT (poly 0x1021, init 0xFFFF, no final XOR) of a
list of code units. -/
def crc16Ref (l : List Nat) : Nat :=
  l.foldl refChar 0xFFFF

/-- A 16-bit value rendered as exactly 4 uppercase hexadecimal digits. -/
def refRender (n : Nat) : List Nat :=
  [hexU (n / 4096 % 16), hexU (n / 256 % 16), hexU (n / 16 % 16), hexU (n % 16)]

/-! ## Error taxonomy

`OrderKuotaErrorCode` as declared by the published `types.ts` of the
classic client (see `type-aliases/OrderKuotaErrorCode.md`), plus
`INVALID_CREDENTIALS` which only the token-based client's union
declares and uses. -/

/-- Error codes used across both client classes. -/
inductive ErrCode where
  | MISSING_CONFIG
  | BALANCE_CHECK_FAILED
  | API_ERROR
  | EMPTY_RESPONSE
  | INVALID_RESPONSE
  | NETWORK_ERROR
  | QRIS_FETCH_FAILED
  | VA_FETCH_FAILED
  | RETAIL_FETCH_FAILED
  | QRIS_GENERATION_FAILED
  | INVALID_AMOUNT
  | INVALID_QRIS_FORMAT
  | MISSING_BASE_QR_STRING
  | CRC_CALCULATION_FAILED
  | INVALID_QRIS_STRING
  | QR_GENERATION_FAILED
  | UNKNOWN_ERROR
  | INVALID_CREDENTIALS
  deriving DecidableEq, Repr

/-- The string literal carried by an error code. -/
def codeStr : ErrCode → String
  | .MISSING_CONFIG => "MISSING_CONFIG"
  | .BALANCE_CHECK_FAILED => "BALANCE_CHECK_FAILED"
  | .API_ERROR => "API_ERROR"
  | .EMPTY_RESPONSE => "EMPTY_RESPONSE"
  | .INVALID_RESPONSE => "INVALID_RESPONSE"
  | .NETWORK_ERROR => "NETWORK_ERROR"
  | .QRIS_FETCH_FAILED => "QRIS_FETCH_FAILED"
  | .VA_FETCH_FAILED => "VA_FETCH_FAILED"
  | .RETAIL_FETCH_FAILED => "RETAIL_FETCH_FAILED"
  | .QRIS_GENERATION_FAILED => "QRIS_GENERATION_FAILED"
  | .INVALID_AMOUNT => "INVALID_AMOUNT"
  | .INVALID_QRIS_FORMAT => "INVALID_QRIS_FORMAT"
  | .MISSING_BASE_QR_STRING => "MISSING_BASE_QR_STRING"
  | .CRC_CALCULATION_FAILED => "CRC_CALCULATION_FAILED"
  | .INVALID_QRIS_STRING => "INVALID_QRIS_STRING"
  | .QR_GENERATION_FAILED => "QR_GENERATION_FAILED"
  | .UNKNOWN_ERROR => "UNKNOWN_ERROR"
  | .INVALID_CREDENTIALS => "INVALID_CREDENTIALS"

/-- The closed set of codes declared by the `OrderKuotaErrorCode` type
alias of the classic client (`types.ts`, 17 members). -/
def declaredErrorCodes : List String :=
  ["MISSING_CONFIG", "BALANCE_CHECK_FAILED", "API_ERROR", "EMPTY_RESPONSE",
   "INVALID_RESPONSE", "NETWORK_ERROR", "QRIS_FETCH_FAILED", "VA_FETCH_FAILED",
   "RETAIL_FETCH_FAILED", "QRIS_GENERATION_FAILED", "INVALID_AMOUNT",
   "INVALID_QRIS_FORMAT", "MISSING_BASE_QR_STRING", "CRC_CALCULATION_FAILED",
   "INVALID_QRIS_STRING", "QR_GENERATION_FAILED", "UNKNOWN_ERROR"]

/-- The `OrderKuotaError` exception: a message, a code from the closed
set, and an optional numeric HTTP status. -/
structure OKError where
  message : List Nat
  code : ErrCode
  status : Option Nat := none
  deriving DecidableEq, Repr

/-! ## JavaScript number helpers -/

/-- JavaScript `Math.floor` on an exact rational value. -/
def jsFloor (q : ℚ) : ℤ :=
  q.num.fdiv q.den

/-- Truthiness of an optional string: `undefined` and `""` are falsy. -/
def truthyS : Option (List Nat) → Bool
  | none => false
  | some s => !s.isEmpty

/-! ## Classic client (`src/OrderKuota.ts`): QRIS generation core -/

/-- The `calculateCRC16` method: guard against the empty string, then
render the CRC register as `crc.toString(16).toUpperCase().padStart(4, '0')`. -/
def calculateCRC16 (s : List Nat) : Except OKError (List Nat) :=
  if s.isEmpty then
    .error ⟨jstr "String cannot be empty for CRC16 calculation",
            .CRC_CALCULATION_FAILED, none⟩
  else
    .ok (padStart (natHexU (crc16 s)) 4 48)

/-- `this.baseQrString.slice(0, -4)`: drop the trailing 4-character CRC. -/
def stripLast4 (l : List Nat) : List Nat :=
  l.take (l.length - 4)

/-- `baseQrString.slice(0, -4).replace("010211", "010212")`:
the prepared base used by `generateQrisString`. -/
def prepareBase (b : List Nat) : List Nat :=
  replaceFirst (jstr "010211") (jstr "010212") (stripLast4 b)

/-- The transaction-amount TLV segment built by `generateQrisString`:
`` `54${nominalStr.length.toString().padStart(2, '0')}${nominalStr}` ``
with `nominalStr = Math.floor(amount).toString()`.  The inner
`length.toString()` is plain decimal: a string length is far below the
`10^21` exponent-notation threshold. -/
def amountTag (amount : ℚ) : List Nat :=
  jstr "54" ++ padStart (natDecimal (jsNumToString (jsFloor amount).toNat).length) 2 48
    ++ jsNumToString (jsFloor amount).toNat

/-- The `generateQrisString` method of the classic client, as a function
of the configured `baseQrString` and the requested amount. -/
def generateQrisString (baseQrString : Option (List Nat)) (amount : ℚ) :
    Except OKError (List Nat) :=
  if amount ≤ 0 then
    .error ⟨jstr "Amount must be greater than 0", .INVALID_AMOUNT, none⟩
  else
    match baseQrString with
    | none => .error ⟨jstr "Base QR string is required for QRIS generation. Please provide baseQrString in configuration.",
                      .MISSING_BASE_QR_STRING, none⟩
    | some b =>
      if b.isEmpty then
        .error ⟨jstr "Base QR string is required for QRIS generation. Please provide baseQrString in configuration.",
                .MISSING_BASE_QR_STRING, none⟩
      else if jsIncludes b (jstr "5802ID") = false then
        .error ⟨jstr "Invalid QRIS format: missing Indonesian country code (5802ID)",
                .INVALID_QRIS_FORMAT, none⟩
      else
        match firstOccur (jstr "5802ID") (prepareBase b) with
        | none =>
          .error ⟨jstr "Invalid QRIS format: cannot find country code position",
                  .INVALID_QRIS_FORMAT, none⟩
        | some p =>
          let qrisWithNominal :=
            (prepareBase b).take p ++ amountTag amount ++ (prepareBase b).drop p
          match calculateCRC16 qrisWithNominal with
          | .error e => .error e
          | .ok checksum => .ok (qrisWithNominal ++ checksum)

/-- The `isQrisGenerationAvailable` method:
`!!(this.baseQrString && this.baseQrString.includes("5802ID"))`. -/
def isQrisGenerationAvailable (baseQrString : Option (List Nat)) : Bool :=
  match baseQrString with
  | none => false
  | some b => if b.isEmpty then false else jsIncludes b (jstr "5802ID")

/-! ## Classic client: instance state and remaining operations

The class holds five `readonly` credential strings and an optional
`readonly` base QRIS string.  Every method is modelled as a state
transformer `OrderKuota → ... → result × OrderKuota` so that frame
properties are expressible; methods whose bodies contain no field
assignment return the instance unchanged, mirroring `readonly`. -/

/-- Instance state of the classic `OrderKuota` client. -/
structure OrderKuota where
  username : List Nat
  pin : List Nat
  userid : List Nat
  apikey : List Nat
  password : List Nat
  baseQrString : Option (List Nat)
  deriving DecidableEq, Repr

/-- The `OrderKuotaConfig` argument of the classic constructor. -/
structure OrderKuotaConfig where
  username : List Nat
  pin : List Nat
  userid : List Nat
  apikey : List Nat
  password : List Nat
  baseQrString : Option (List Nat)
  deriving DecidableEq, Repr

/-- The classic constructor: rejects any falsy required field. -/
def mkOrderKuota (config : OrderKuotaConfig) : Except OKError OrderKuota :=
  if config.username.isEmpty || config.password.isEmpty || config.userid.isEmpty
      || config.apikey.isEmpty || config.pin.isEmpty then
    .error ⟨jstr "Missing required configuration. All fields (username, password, userid, apikey, pin) are required.",
            .MISSING_CONFIG, none⟩
  else
    .ok ⟨config.username, config.pin, config.userid, config.apikey,
         config.password, config.baseQrString⟩

/-! ### Balance-text parsing helpers (for `checkBalance`)

The whitespace class is modelled over its ASCII members plus NBSP and
BOM (the balance API is ASCII text); JavaScript `\s` additionally
matches rarer Unicode space characters. -/

/-- Whitespace code units recognised by `trim` / `\s`. -/
def isWS (c : Nat) : Bool :=
  c == 9 || c == 10 || c == 11 || c == 12 || c == 13 || c == 32
    || c == 160 || c == 65279

/-- JavaScript `String.prototype.trim`. -/
def jsTrim (l : List Nat) : List Nat :=
  ((l.dropWhile isWS).reverse.dropWhile isWS).reverse

/-- ASCII `String.prototype.toLowerCase` (the error-indicator words the
code searches for are ASCII). -/
def jsToLower (l : List Nat) : List Nat :=
  l.map fun c => if 65 ≤ c && c ≤ 90 then c + 32 else c

/-- The error-indicator test of `checkBalance` over the lowercased body. -/
def hasErrorIndicator (lower : List Nat) : Bool :=
  jsIncludes lower (jstr "error") || jsIncludes lower (jstr "failed")
    || jsIncludes lower (jstr "invalid") || jsIncludes lower (jstr "unauthorized")
    || jsIncludes lower (jstr "access denied")

/-- Character class `[\d.,]` of the balance regex. -/
def isNumChar (c : Nat) : Bool :=
  (48 ≤ c && c ≤ 57) || c == 46 || c == 44

/-- Decimal digit code unit. -/
def isDigitCode (c : Nat) : Bool :=
  48 ≤ c && c ≤ 57

/-- Case-insensitively consume the literal `w` followed by `\s*`;
`none` when `w` is not a prefix here. -/
def afterOpt (w : String) (l : List Nat) : Option (List Nat) :=
  if (jstr w).isPrefixOf (jsToLower (l.take (jstr w).length)) && (jstr w).length ≤ l.length
  then some ((l.drop (jstr w).length).dropWhile isWS)
  else none

/-- The capture group `([\d.,]+)` when it matches at this position. -/
def digitRunAt (l : List Nat) : Option (List Nat) :=
  let r := l.takeWhile isNumChar
  if r.isEmpty then none else some r

/-- The optional `(?:rp\s*)?` alternative (greedy first), then the capture. -/
def rpBranch (l : List Nat) : Option (List Nat) :=
  match afterOpt "rp" l with
  | some l2 => (digitRunAt l2).orElse fun _ => digitRunAt l
  | none => digitRunAt l

/-- Whether `/(?:saldo\s*)?(?:rp\s*)?([\d.,]+)/i` matches starting here,
and if so the content of its capture group (greedy, with backtracking
over the two optional groups). -/
def matchAt (l : List Nat) : Option (List Nat) :=
  match afterOpt "saldo" l with
  | some l1 => (rpBranch l1).orElse fun _ => rpBranch l
  | none => rpBranch l

/-- Leftmost match of the balance regex: the captured `[\d.,]+` run. -/
def regexCapture : List Nat → Option (List Nat)
  | [] => none
  | a :: t =>
    match matchAt (a :: t) with
    | some g => some g
    | none => regexCapture t

/-- JavaScript `parseFloat` on a string over digits and dots (the only
characters reaching it here), as an exact rational; `none` models `NaN`. -/
def jsParseFloat (l : List Nat) : Option ℚ :=
  let intPart := l.takeWhile isDigitCode
  let rest := l.drop intPart.length
  let fracPart :=
    if rest.head? = some 46 then (rest.drop 1).takeWhile isDigitCode else []
  if intPart.isEmpty && fracPart.isEmpty then none
  else some ((digitsToNat intPart : ℚ) + (digitsToNat fracPart : ℚ) / 10 ^ fracPart.length)

/-- The balance extracted from the textual body:
match the regex, strip thousands dots, turn commas into decimal points,
`parseFloat(...) || 0`; unparseable bodies yield `0` (with a warning). -/
def parseBalanceValue (body : List Nat) : ℚ :=
  match regexCapture body with
  | none => 0
  | some g =>
    let cleaned := (g.filter (· ≠ 46)).map fun c => if c = 44 then 46 else c
    match jsParseFloat cleaned with
    | none => 0
    | some q => q

/-- The `BalanceResponse` DTO. -/
structure BalanceResponse where
  status : Bool
  message : List Nat
  balance : ℚ
  deriving DecidableEq, Repr

/-- Outcome of the HTTP call made by `checkBalance`: a textual body, a
JSON body (field-wise), a body of neither type, an axios failure with
optional HTTP status, or a non-axios failure. -/
inductive BalanceHttp where
  | strData (body : List Nat)
  | objData (status : Bool) (message : Option (List Nat)) (balance : Option ℚ)
  | otherData
  | axiosFail (status : Option Nat) (message : List Nat)
  | unknownFail
  deriving DecidableEq, Repr

/-- The `checkBalance` method of the classic client. -/
def OrderKuota.checkBalance (o : OrderKuota) (resp : BalanceHttp) :
    Except OKError BalanceResponse × OrderKuota :=
  match resp with
  | .strData body =>
    let balanceText := jsTrim body
    if balanceText.isEmpty then
      (.error ⟨jstr "Empty response from balance API", .EMPTY_RESPONSE, none⟩, o)
    else if hasErrorIndicator (jsToLower balanceText) then
      (.error ⟨jstr "API Error: " ++ balanceText, .API_ERROR, none⟩, o)
    else
      (.ok ⟨true, balanceText, parseBalanceValue balanceText⟩, o)
  | .objData status message balance =>
    if !status then
      (.error ⟨message.getD (jstr "Balance check failed"), .BALANCE_CHECK_FAILED, none⟩, o)
    else
      (.ok ⟨status, message.getD (jstr "Success"), balance.getD 0⟩, o)
  | .otherData =>
    (.error ⟨jstr "Invalid response format from balance API", .INVALID_RESPONSE, none⟩, o)
  | .axiosFail status message =>
    (.error ⟨jstr "Network error: " ++ message, .NETWORK_ERROR, status⟩, o)
  | .unknownFail =>
    (.error ⟨jstr "Unknown error occurred while checking balance", .UNKNOWN_ERROR, none⟩, o)

/-- Outcome of the HTTP call of the three history fetchers: the typed
response body is passed through opaquely. -/
inductive FetchHttp (α : Type) where
  | ok (data : α)
  | axiosFail (status : Option Nat) (message : List Nat)
  | unknownFail

/-- The `fetchQrisHistory` method of the classic client. -/
def OrderKuota.fetchQrisHistory (o : OrderKuota) (resp : FetchHttp α) :
    Except OKError α × OrderKuota :=
  match resp with
  | .ok d => (.ok d, o)
  | .axiosFail status message =>
    (.error ⟨jstr "Failed to fetch QRIS history: " ++ message, .QRIS_FETCH_FAILED, status⟩, o)
  | .unknownFail =>
    (.error ⟨jstr "Unknown error occurred while fetching QRIS history", .UNKNOWN_ERROR, none⟩, o)

/-- The `fetchVirtualAccountHistory` method of the classic client. -/
def OrderKuota.fetchVirtualAccountHistory (o : OrderKuota) (resp : FetchHttp α) :
    Except OKError α × OrderKuota :=
  match resp with
  | .ok d => (.ok d, o)
  | .axiosFail status message =>
    (.error ⟨jstr "Failed to fetch Virtual Account history: " ++ message, .VA_FETCH_FAILED, status⟩, o)
  | .unknownFail =>
    (.error ⟨jstr "Unknown error occurred while fetching Virtual Account history", .UNKNOWN_ERROR, none⟩, o)

/-- The `fetchRetailHistory` method of the classic client. -/
def OrderKuota.fetchRetailHistory (o : OrderKuota) (resp : FetchHttp α) :
    Except OKError α × OrderKuota :=
  match resp with
  | .ok d => (.ok d, o)
  | .axiosFail status message =>
    (.error ⟨jstr "Failed to fetch retail history: " ++ message, .RETAIL_FETCH_FAILED, status⟩, o)
  | .unknownFail =>
    (.error ⟨jstr "Unknown error occurred while fetching retail history", .UNKNOWN_ERROR, none⟩, o)

/-- Outcome of `QRCode.toDataURL`. -/
inductive QrHttp where
  | ok (dataUrl : List Nat)
  | libFail (message : List Nat)
  deriving DecidableEq, Repr

/-- JavaScript `String.prototype.split` on a single separator code unit. -/
def jsSplit (sep : Nat) (l : List Nat) : List (List Nat) :=
  l.splitOn sep

/-- The `generateQrisImage` method of the classic client (the QR options
only shape the library call, whose outcome is the oracle argument). -/
def OrderKuota.generateQrisImage (o : OrderKuota) (qrisString : List Nat)
    (resp : QrHttp) : Except OKError (List Nat) × OrderKuota :=
  if qrisString.isEmpty || (jsTrim qrisString).isEmpty then
    (.error ⟨jstr "QRIS string cannot be empty", .INVALID_QRIS_STRING, none⟩, o)
  else
    match resp with
    | .ok dataUrl =>
      match (jsSplit 44 dataUrl).get? 1 with
      | none =>
        (.error ⟨jstr "Failed to extract base64 data from QR code", .QR_GENERATION_FAILED, none⟩, o)
      | some base64Data =>
        if base64Data.isEmpty then
          (.error ⟨jstr "Failed to extract base64 data from QR code", .QR_GENERATION_FAILED, none⟩, o)
        else (.ok base64Data, o)
    | .libFail message =>
      (.error ⟨jstr "Failed to generate QR code image: " ++ message, .QR_GENERATION_FAILED, none⟩, o)

/-- The `generateQrisString` method as a state transformer. -/
def OrderKuota.generateQrisStringM (o : OrderKuota) (amount : ℚ) :
    Except OKError (List Nat) × OrderKuota :=
  (generateQrisString o.baseQrString amount, o)

/-- The `generateQrisQrCode` method: `generateQrisString` then
`generateQrisImage`; `OrderKuotaError`s are rethrown unchanged. -/
def OrderKuota.generateQrisQrCode (o : OrderKuota) (amount : ℚ) (resp : QrHttp) :
    Except OKError (List Nat) × OrderKuota :=
  match generateQrisString o.baseQrString amount with
  | .error e => (.error e, o)
  | .ok qrisString => o.generateQrisImage qrisString resp

/-- The non-sensitive projection returned by `getConfig`. -/
structure PublicConfig where
  username : List Nat
  userid : List Nat
  deriving DecidableEq, Repr

/-- The `getConfig` method: only `username` and `userid` survive. -/
def OrderKuota.getConfig (o : OrderKuota) : PublicConfig × OrderKuota :=
  (⟨o.username, o.userid⟩, o)

/-- The `isConfigValid` method. -/
def OrderKuota.isConfigValid (o : OrderKuota) : Bool × OrderKuota :=
  (!o.username.isEmpty && !o.pin.isEmpty && !o.userid.isEmpty
     && !o.apikey.isEmpty && !o.password.isEmpty, o)

/-- The `isQrisGenerationAvailable` method as a state transformer. -/
def OrderKuota.isQrisGenerationAvailableM (o : OrderKuota) : Bool × OrderKuota :=
  (isQrisGenerationAvailable o.baseQrString, o)

/-! ## Token-based client (`OrderKuotaV2`)

The second `OrderKuota` class shipped by the repository authenticates
with OTP/token.  Its `username`, `password` and `baseQrString` fields
are `readonly`; `token` is the single mutable field, assigned only in
the constructor, in `getToken` (success path) and in `setToken`.
Network-returning methods resolve to plain objects rather than throwing
on axios failures; response bodies are modelled field-wise by the
properties the code reads. -/

/-- Instance state of the token-based client. -/
structure OrderKuotaV2 where
  username : List Nat
  password : List Nat
  token : Option (List Nat)
  baseQrString : Option (List Nat)
  deriving DecidableEq, Repr

/-- Constructor argument of the token-based client. -/
structure OrderKuotaV2Config where
  username : List Nat
  password : List Nat
  token : Option (List Nat)
  baseQrString : Option (List Nat)
  deriving DecidableEq, Repr

/-- The token-based constructor: username and password are required. -/
def mkOrderKuotaV2 (config : OrderKuotaV2Config) : Except OKError OrderKuotaV2 :=
  if config.username.isEmpty || config.password.isEmpty then
    .error ⟨jstr "Missing required configuration. Username and password are required.",
            .MISSING_CONFIG, none⟩
  else
    .ok ⟨config.username, config.password, config.token, config.baseQrString⟩

/-- Outcome of an `axios.post` by the token-based client: the parsed
body, an axios failure, or another exception. -/
inductive PostHttp (α : Type) where
  | ok (data : α)
  | axiosFail (message : List Nat)
  | unknownFail (message : List Nat)

/-- Fields of the login response body read by `getOTP`:
whether `data?.success === false`, the raw body passed through in that
case being abstract, and `data?.results?.otp_value`. -/
structure OtpData where
  successFalse : Bool
  otpValue : Option (List Nat)
  deriving DecidableEq, Repr

/-- Result union of `getOTP` (it never throws). -/
inductive OtpRes where
  | passthru (d : OtpData)
  | fail (message : List Nat)
  | success (email : List Nat)
  deriving DecidableEq, Repr

/-- The `getOTP` method. -/
def OrderKuotaV2.getOTP (s : OrderKuotaV2) (resp : PostHttp OtpData) :
    OtpRes × OrderKuotaV2 :=
  match resp with
  | .ok d =>
    if d.successFalse then (.passthru d, s)
    else if !truthyS d.otpValue then
      (.fail (jstr "Failed to get OTP email from response"), s)
    else (.success ((d.otpValue).getD []), s)
  | .axiosFail m => (.fail (jstr "Network error: " ++ m), s)
  | .unknownFail m => (.fail (jstr "Unexpected error during OTP request: " ++ m), s)

/-- Fields of the login response body read by `getToken`. -/
structure TokData where
  successFalse : Bool
  token : Option (List Nat)
  deriving DecidableEq, Repr

/-- Result union of `getToken` on its non-throwing paths. -/
inductive TokRes where
  | passthru (d : TokData)
  | fail (message : List Nat)
  | success (token : List Nat)
  deriving DecidableEq, Repr

/-- The `getToken` method: throws for a missing OTP, stores the token
from a successful response into `this.token`. -/
def OrderKuotaV2.getToken (s : OrderKuotaV2) (otp : List Nat)
    (resp : PostHttp TokData) : Except OKError TokRes × OrderKuotaV2 :=
  if otp.isEmpty then
    (.error ⟨jstr "OTP code is required", .INVALID_CREDENTIALS, none⟩, s)
  else
    match resp with
    | .ok d =>
      if d.successFalse then (.ok (.passthru d), s)
      else
        match d.token with
        | none => (.ok (.fail (jstr "Token not found in response.")), s)
        | some tok =>
          if tok.isEmpty then (.ok (.fail (jstr "Token not found in response.")), s)
          else (.ok (.success tok), { s with token := some tok })
    | .axiosFail m => (.ok (.fail (jstr "Network error: " ++ m)), s)
    | .unknownFail m =>
      (.ok (.fail (jstr "Unexpected error during token request: " ++ m)), s)

/-- The `getQRISHistory` method: requires a token, then passes the
response body through (body and filters only shape the HTTP call). -/
def OrderKuotaV2.getQRISHistory (s : OrderKuotaV2) (resp : PostHttp α) :
    Except OKError (Except (List Nat) α) × OrderKuotaV2 :=
  if !truthyS s.token then
    (.error ⟨jstr "Token is required. Please call getToken() first.", .INVALID_CREDENTIALS, none⟩, s)
  else
    match resp with
    | .ok d => (.ok (.ok d), s)
    | .axiosFail m => (.ok (.error (jstr "Network error: " ++ m)), s)
    | .unknownFail m =>
      (.ok (.error (jstr "Unexpected error during QRIS history request: " ++ m)), s)

/-- Fields of the QRIS-menu response body read by `checkBalance`. -/
structure MenuData where
  successFalse : Bool
  message : Option (List Nat)
  accountSuccess : Option Bool
  accountMessage : Option (List Nat)
  accountResults : Option (Option ℚ × Option ℚ)
  deriving DecidableEq, Repr

/-- The `fetchQrisMenu` method: requires a token, then passes the
response body through, or a `{success:false}` object on failure. -/
def OrderKuotaV2.fetchQrisMenu (s : OrderKuotaV2) (resp : PostHttp MenuData) :
    Except OKError (Except (List Nat) MenuData) × OrderKuotaV2 :=
  if !truthyS s.token then
    (.error ⟨jstr "Token is required. Please call getToken() first.", .INVALID_CREDENTIALS, none⟩, s)
  else
    match resp with
    | .ok d => (.ok (.ok d), s)
    | .axiosFail m => (.ok (.error (jstr "Network error: " ++ m)), s)
    | .unknownFail m =>
      (.ok (.error (jstr "Unexpected error during QRIS menu request: " ++ m)), s)

/-- The `generateQRISAjaib` method: token then amount guard, then the
response body is passed through. -/
def OrderKuotaV2.generateQRISAjaib (s : OrderKuotaV2) (amount : ℚ)
    (resp : PostHttp α) : Except OKError (Except (List Nat) α) × OrderKuotaV2 :=
  if !truthyS s.token then
    (.error ⟨jstr "Token is required. Please call getToken() first.", .INVALID_CREDENTIALS, none⟩, s)
  else if amount ≤ 0 then
    (.error ⟨jstr "Amount must be greater than 0", .INVALID_AMOUNT, none⟩, s)
  else
    match resp with
    | .ok d => (.ok (.ok d), s)
    | .axiosFail m => (.ok (.error (jstr "Network error: " ++ m)), s)
    | .unknownFail m =>
      (.ok (.error (jstr "Unexpected error during QRIS Ajaib generation: " ++ m)), s)

/-- Result union of the token-based `checkBalance` (it never throws). -/
inductive CBRes where
  | okBalance (balance qrisBalance : ℚ)
  | fail (message : List Nat)
  deriving DecidableEq, Repr

/-- The token-based `checkBalance`: reads balances out of the QRIS-menu
response via `fetchQrisMenu`, catching every error into a failure object. -/
def OrderKuotaV2.checkBalance (s : OrderKuotaV2) (resp : PostHttp MenuData) :
    CBRes × OrderKuotaV2 :=
  if !truthyS s.token then
    (.fail (jstr "Token is required. Please call getToken() first."), s)
  else
    match (s.fetchQrisMenu resp).1 with
    | .error e => (.fail (jstr "Unexpected error during balance check: " ++ e.message), s)
    | .ok (.error m) => (.fail m, s)
    | .ok (.ok d) =>
      if d.successFalse then
        (.fail ((d.message).getD (jstr "Failed to check balance")), s)
      else if d.accountSuccess ≠ some true then
        (.fail ((d.accountMessage).getD (jstr "Failed to check balance")), s)
      else
        match d.accountResults with
        | none => (.fail (jstr "Account data not found in response"), s)
        | some (balance, qrisBalance) =>
          (.okBalance (balance.getD 0) (qrisBalance.getD 0), s)

/-- The token-based `generateQRImage`: its `catch` wraps every error —
including its own `INVALID_RESPONSE` guard throw — into
`QR_GENERATION_FAILED`. -/
def OrderKuotaV2.generateQRImage (s : OrderKuotaV2) (qrisString : List Nat)
    (resp : QrHttp) : Except OKError (List Nat) × OrderKuotaV2 :=
  if qrisString.isEmpty then
    (.error ⟨jstr "Failed to generate QR image: OrderKuotaError: QRIS string is required",
             .QR_GENERATION_FAILED, none⟩, s)
  else
    match resp with
    | .ok dataUrl => (.ok dataUrl, s)
    | .libFail m =>
      (.error ⟨jstr "Failed to generate QR image: " ++ m, .QR_GENERATION_FAILED, none⟩, s)

/-- The `setToken` method. -/
def OrderKuotaV2.setToken (s : OrderKuotaV2) (token : List Nat) :
    Unit × OrderKuotaV2 :=
  ((), { s with token := some token })

/-- The `getTokenValue` method. -/
def OrderKuotaV2.getTokenValue (s : OrderKuotaV2) :
    Option (List Nat) × OrderKuotaV2 :=
  (s.token, s)

/-- The configuration view returned by the token-based `getConfig`
(everything except `password`). -/
structure V2Config where
  username : List Nat
  token : Option (List Nat)
  baseQrString : Option (List Nat)
  deriving DecidableEq, Repr

/-- The token-based `getConfig`. -/
def OrderKuotaV2.getConfig (s : OrderKuotaV2) : V2Config × OrderKuotaV2 :=
  (⟨s.username, s.token, s.baseQrString⟩, s)

/-- The token-based `isConfigValid`. -/
def OrderKuotaV2.isConfigValid (s : OrderKuotaV2) : Bool × OrderKuotaV2 :=
  (!s.username.isEmpty && !s.password.isEmpty, s)

/-- The `hasToken` method. -/
def OrderKuotaV2.hasToken (s : OrderKuotaV2) : Bool × OrderKuotaV2 :=
  (truthyS s.token, s)

/-! ## Specification-side TLV model (for the point-of-initiation claim)

"the occurrence of `010211` that constitutes tag 01": the stripped base
read as an EMV TLV sequence (2-character tag, 2-digit length, value),
with the value of the element tagged `01` flipped from `11` to `12`.
Structural fuel keeps the scan kernel-computable. -/

/-- Two decimal digit code units as a TLV length. -/
def parseTlvLen (a b : Nat) : Option Nat :=
  if isDigitCode a && isDigitCode b then some ((a - 48) * 10 + (b - 48)) else none

/-- One pass of the TLV scan: rewrite the value of element `01` from
`11` to `12`, keep everything else; `none` when the string is not a
well-formed TLV sequence containing such an element. -/
def tlvFlipAux : Nat → List Nat → Option (List Nat)
  | 0, _ => none
  | _ + 1, [] => none
  | fuel + 1, t1 :: t2 :: l1 :: l2 :: rest =>
    match parseTlvLen l1 l2 with
    | none => none
    | some len =>
      if len ≤ rest.length then
        if [t1, t2] = jstr "01" ∧ rest.take len = jstr "11" then
          some ([t1, t2, l1, l2] ++ jstr "12" ++ rest.drop len)
        else
          match tlvFlipAux fuel (rest.drop len) with
          | none => none
          | some s => some ([t1, t2, l1, l2] ++ rest.take len ++ s)
      else none
  | _ + 1, _ => none

/-- Flip the value of TLV element `01` from static `11` to dynamic `12`. -/
def tlvFlipTag01 (l : List Nat) : Option (List Nat) :=
  tlvFlipAux (l.length + 1) l

/-! ## Concrete example inputs -/

/-- A miniature configured base QRIS string: payload `0102115802ID`
followed by its genuine 4-character CRC16 checksum. -/
def exampleBase : List Nat :=
  jstr "0102115802ID" ++ refRender (crc16Ref (jstr "0102115802ID"))

/-- A base QRIS string whose merchant-account element (tag `26`)
contains the byte sequence `010211` *before* the genuine
point-of-initiation element: TLV elements `000201`, `26100102110000`,
`010211`, `5802ID`, then a 4-character checksum. -/
def trickyBase : List Nat :=
  jstr "000201261001021100000102115802IDABCD"

/-- The rational amount `1/2`, given by its reduced fraction so that
comparisons on it evaluate by `decide`. -/
def halfQ : ℚ := ⟨1, 2, by decide, by decide⟩

/-! ## CRC equivalence lemmas -/

theorem testBit_mod65536 (x i : Nat) :
    (x % 65536).testBit i = (decide (i < 16) && x.testBit i) := by
  have h := Nat.testBit_mod_two_pow x 16 i
  norm_num at h
  exact h

theorem testBit_mod2p32 (x i : Nat) :
    (x % 4294967296).testBit i = (decide (i < 32) && x.testBit i) := by
  have h := Nat.testBit_mod_two_pow x 32 i
  norm_num at h
  exact h

theorem testBit_65535 (i : Nat) : Nat.testBit 65535 i = decide (i < 16) := by
  have h := Nat.testBit_two_pow_sub_one 16 i
  norm_num at h
  exact h

theorem testBit_32768 (i : Nat) : Nat.testBit 32768 i = decide (i = 15) := by
  have h : (32768 : Nat) = 2 ^ 15 := by norm_num
  rw [h, Nat.testBit_two_pow]
  simp [eq_comm]

theorem testBit_4129_high (i : Nat) (h : 16 ≤ i) : Nat.testBit 4129 i = false := by
  apply Nat.testBit_lt_two_pow
  calc (4129 : Nat) < 2 ^ 16 := by norm_num
    _ ≤ 2 ^ i := Nat.pow_le_pow_right (by norm_num) h

/-- Masking with `0xFFFF` is reduction modulo `2^16`. -/
theorem land_ffff (x : Nat) : x &&& 65535 = x % 65536 := by
  apply Nat.eq_of_testBit_eq
  intro i
  simp [Nat.testBit_and, testBit_65535, testBit_mod65536, Bool.and_comm]

/-- Bit 15 is unaffected by reduction modulo `2^16`. -/
theorem and_8000_mod (x : Nat) : (x % 65536) &&& 32768 = x &&& 32768 := by
  apply Nat.eq_of_testBit_eq
  intro i
  simp only [Nat.testBit_and, testBit_mod65536, testBit_32768]
  rcases Nat.decEq i 15 with h | h
  · simp [h]
  · simp [h]
  
/-- The 16 low bits of one JavaScript bit-loop step agree with the
textbook 16-bit step. -/
theorem jsBit_mod (x : Nat) : jsBit x % 65536 = refBit (x % 65536) := by
  have hcond : (x % 65536) &&& 32768 = x &&& 32768 := and_8000_mod x
  unfold jsBit refBit
  rw [show (0x8000 : Nat) = 32768 from rfl, hcond]
  by_cases h : x &&& 32768 = 0
  · simp only [h, ne_eq, not_true_eq_false, if_false]
    apply Nat.eq_of_testBit_eq
    intro i
    simp only [testBit_mod65536, testBit_mod2p32, Nat.testBit_shiftLeft, ge_iff_le]
    rcases Nat.lt_or_ge i 16 with hi | hi
    · by_cases h1 : 1 ≤ i
      · simp [hi, h1, show i < 32 by omega, show i - 1 < 16 by omega]
      · simp [show ¬ (1 ≤ i) from h1]
    · simp [show ¬ (i < 16) by omega]
  · simp only [h, ne_eq, not_false_eq_true, if_true]
    apply Nat.eq_of_testBit_eq
    intro i
    simp only [testBit_mod65536, testBit_mod2p32, Nat.testBit_xor, Nat.testBit_shiftLeft,
      ge_iff_le]
    rcases Nat.lt_or_ge i 16 with hi | hi
    · by_cases h1 : 1 ≤ i
      · simp [hi, h1, show i < 32 by omega, show i - 1 < 16 by omega]
      · simp [show ¬ (1 ≤ i) from h1]
    · simp [show ¬ (i < 16) by omega, testBit_4129_high i hi]

/-- Iterating the JavaScript bit loop agrees with iterating the
textbook step on the low 16 bits. -/
theorem jsBit_iter_mod (n x : Nat) :
    (jsBit^[n] x) % 65536 = refBit^[n] (x % 65536) := by
  induction n generalizing x with
  | zero => rfl
  | succ n ih =>
    rw [Function.iterate_succ_apply, Function.iterate_succ_apply, ih, jsBit_mod]

/-- Per-character agreement of the code's CRC step with the textbook step. -/
theorem jsCrcChar_eq_refChar (crc c : Nat) : jsCrcChar crc c = refChar crc c := by
  unfold jsCrcChar refChar
  rw [show (0xFFFF : Nat) = 65535 from rfl, land_ffff, jsBit_iter_mod]

/-- The CRC register computed by `calculateCRC16` is the textbook
CRC16-CCITT value. -/
theorem crc16_eq_crc16Ref (l : List Nat) : crc16 l = crc16Ref l := by
  unfold crc16 crc16Ref
  rw [funext fun crc => funext fun c => jsCrcChar_eq_refChar crc c]

/-- The textbook step keeps the register below `2^16`. -/
theorem refBit_lt (x : Nat) : refBit x < 65536 := by
  unfold refBit
  split <;> exact Nat.mod_lt _ (by norm_num)

/-- Absorbing a character keeps the register below `2^16`. -/
theorem refChar_lt (crc c : Nat) : refChar crc c < 65536 := by
  unfold refChar
  rw [Function.iterate_succ_apply']
  exact refBit_lt _

/-- The textbook CRC of any input is a 16-bit value. -/
theorem crc16Ref_lt (l : List Nat) : crc16Ref l < 65536 := by
  suffices h : ∀ a : Nat, a < 65536 → l.foldl refChar a < 65536 from
    h 0xFFFF (by norm_num)
  induction l with
  | nil => intro a ha; exact ha
  | cons c t ih => intro a _; exact ih (refChar a c) (refChar_lt a c)

/-! ## Hexadecimal rendering lemmas -/

/-- Fuel does not matter once sufficient. -/
theorem natHexAux_fuel (n : Nat) : ∀ f g, n < f → n < g →
    natHexAux f n = natHexAux g n := by
  induction n using Nat.strong_induction_on with
  | _ n ih =>
    intro f g hf hg
    match f, g with
    | f + 1, g + 1 =>
      simp only [natHexAux]
      by_cases h16 : n < 16
      · simp [h16]
      · have hdiv : n / 16 < n := Nat.div_lt_self (by omega) (by norm_num)
        rw [ih (n / 16) hdiv (f) (g) (by omega) (by omega)]

/-- Unfolding equation of the hexadecimal rendering. -/
theorem natHexU_eq (n : Nat) :
    natHexU n = if n < 16 then [hexU n] else natHexU (n / 16) ++ [hexU (n % 16)] := by
  unfold natHexU
  conv_lhs => rw [natHexAux]
  by_cases h16 : n < 16
  · simp [h16]
  · have hdiv : n / 16 < n := Nat.div_lt_self (by omega) (by norm_num)
    simp only [h16, if_false]
    rw [natHexAux_fuel (n / 16) n (n / 16 + 1) (by omega) (by omega)]

/-- `toString(16).toUpperCase().padStart(4, '0')` of a 16-bit value is
its canonical 4-digit uppercase rendering. -/
theorem padded_hex_eq_refRender (n : Nat) (h : n < 65536) :
    padStart (natHexU n) 4 48 = refRender n := by
  have h480 : hexU 0 = 48 := rfl
  rcases Nat.lt_or_ge n 16 with h1 | h1
  · rw [natHexU_eq, if_pos h1]
    show [48, 48, 48, hexU n] = refRender n
    unfold refRender
    rw [show n / 4096 % 16 = 0 by omega, show n / 256 % 16 = 0 by omega,
      show n / 16 % 16 = 0 by omega, show n % 16 = n by omega, h480]
  · rcases Nat.lt_or_ge n 256 with h2 | h2
    · rw [natHexU_eq, if_neg (by omega), natHexU_eq, if_pos (by omega)]
      show [48, 48, hexU (n / 16), hexU (n % 16)] = refRender n
      unfold refRender
      rw [show n / 4096 % 16 = 0 by omega, show n / 256 % 16 = 0 by omega,
        show n / 16 % 16 = n / 16 by omega, h480]
    · have hd : n / 16 / 16 = n / 256 := by
        rw [Nat.div_div_eq_div_mul]
      have hd2 : n / 256 / 16 = n / 4096 := by
        rw [Nat.div_div_eq_div_mul]
      rcases Nat.lt_or_ge n 4096 with h3 | h3
      · rw [natHexU_eq, if_neg (by omega), natHexU_eq, if_neg (by omega), hd,
          natHexU_eq, if_pos (by omega)]
        show [48, hexU (n / 256), hexU (n / 16 % 16), hexU (n % 16)] = refRender n
        unfold refRender
        rw [show n / 4096 % 16 = 0 by omega, show n / 256 % 16 = n / 256 by omega, h480]
      · rw [natHexU_eq, if_neg (by omega), natHexU_eq, if_neg (by omega), hd,
          natHexU_eq, if_neg (by omega), hd2, natHexU_eq, if_pos (by omega)]
        show [hexU (n / 4096), hexU (n / 256 % 16), hexU (n / 16 % 16), hexU (n % 16)]
          = refRender n
        unfold refRender
        rw [show n / 4096 % 16 = n / 4096 by omega]

/-! ## Decimal rendering lemmas -/

/-- Fuel does not matter once sufficient. -/
theorem natDecimalAux_fuel (n : Nat) : ∀ f g, n < f → n < g →
    natDecimalAux f n = natDecimalAux g n := by
  induction n using Nat.strong_induction_on with
  | _ n ih =>
    intro f g hf hg
    match f, g with
    | f + 1, g + 1 =>
      simp only [natDecimalAux]
      by_cases h10 : n < 10
      · simp [h10]
      · have hdiv : n / 10 < n := Nat.div_lt_self (by omega) (by norm_num)
        rw [ih (n / 10) hdiv (f) (g) (by omega) (by omega)]

/-- Unfolding equation of the decimal rendering. -/
theorem natDecimal_eq (n : Nat) :
    natDecimal n = if n < 10 then [48 + n] else natDecimal (n / 10) ++ [48 + n % 10] := by
  unfold natDecimal
  conv_lhs => rw [natDecimalAux]
  by_cases h10 : n < 10
  · simp [h10]
  · have hdiv : n / 10 < n := Nat.div_lt_self (by omega) (by norm_num)
    simp only [h10, if_false]
    rw [natDecimalAux_fuel (n / 10) n (n / 10 + 1) (by omega) (by omega)]

/-- Appending one digit multiplies the read-back value by ten. -/
theorem digitsToNat_append_digit (l : List Nat) (c : Nat) :
    digitsToNat (l ++ [c]) = 10 * digitsToNat l + (c - 48) := by
  unfold digitsToNat
  rw [List.foldl_append]
  rfl

/-- Reading the decimal rendering back yields the original number. -/
theorem digitsToNat_natDecimal (n : Nat) : digitsToNat (natDecimal n) = n := by
  induction n using Nat.strong_induction_on with
  | _ n ih =>
    rw [natDecimal_eq]
    by_cases h10 : n < 10
    · simp only [h10, if_true]
      show 10 * 0 + (48 + n - 48) = n
      omega
    · have hdiv : n / 10 < n := Nat.div_lt_self (by omega) (by norm_num)
      simp only [h10, if_false]
      rw [digitsToNat_append_digit, ih (n / 10) hdiv]
      omega

/-- Below the exponent-notation threshold, `Number.prototype.toString`
is the plain decimal rendering. -/
theorem jsNumToString_small (n : Nat) (h : n < 10 ^ 21) :
    jsNumToString n = natDecimal n := by
  unfold jsNumToString
  rw [if_pos h]

/-- The decimal rendering is never empty. -/
theorem natDecimal_ne_nil (n : Nat) : natDecimal n ≠ [] := by
  rw [natDecimal_eq]
  by_cases h10 : n < 10
  · simp [h10]
  · simp [h10]

/-- Digit-count bound: below `10^k` a number has at most `k` digits. -/
theorem natDecimal_length_le (k : Nat) : ∀ n, n < 10 ^ k → 1 ≤ k →
    (natDecimal n).length ≤ k := by
  induction k with
  | zero => intro n _ h; omega
  | succ k ih =>
    intro n hn _
    rw [natDecimal_eq]
    by_cases h10 : n < 10
    · simp [h10]
    · have hk : 1 ≤ k := by
        by_contra h
        have : k = 0 := by omega
        subst this
        simp [pow_succ] at hn
        omega
      have hdiv : n / 10 < 10 ^ k := by
        rw [Nat.div_lt_iff_lt_mul (by norm_num)]
        calc n < 10 ^ (k + 1) := hn
          _ = 10 ^ k * 10 := by rw [pow_succ]
      simp only [h10, if_false, List.length_append, List.length_cons, List.length_nil]
      have := ih (n / 10) hdiv hk
      omega

/-- Exact digit count: at least `10^k` means more than `k` digits. -/
theorem natDecimal_length_ge (k : Nat) : ∀ n, 10 ^ k ≤ n →
    k + 1 ≤ (natDecimal n).length := by
  induction k with
  | zero =>
    intro n _
    have := natDecimal_ne_nil n
    cases h : natDecimal n with
    | nil => exact absurd h this
    | cons a t => simp
  | succ k ih =>
    intro n hn
    have h10 : ¬ n < 10 := by
      have : (10 : Nat) ^ 1 ≤ 10 ^ (k + 1) := Nat.pow_le_pow_right (by norm_num) (by omega)
      simp at this
      omega
    rw [natDecimal_eq]
    simp only [h10, if_false, List.length_append, List.length_cons, List.length_nil]
    have hdiv : 10 ^ k ≤ n / 10 := by
      rw [Nat.le_div_iff_mul_le (by norm_num)]
      calc 10 ^ k * 10 = 10 ^ (k + 1) := (pow_succ 10 k).symm
        _ ≤ n := hn
    have := ih (n / 10) hdiv
    omega

/-- Leading `'0'` characters do not change the read-back value. -/
theorem digitsToNat_replicate_zero (k : Nat) (l : List Nat) :
    digitsToNat (List.replicate k 48 ++ l) = digitsToNat l := by
  have hz : List.foldl (fun a c => 10 * a + (c - 48)) 0 (List.replicate k 48) = 0 := by
    induction k with
    | zero => rfl
    | succ k ih => rw [List.replicate_succ]; exact ih
  unfold digitsToNat
  rw [List.foldl_append, hz]

/-- Length of a padded string. -/
theorem padStart_length (l : List Nat) (n c : Nat) :
    (padStart l n c).length = max n l.length := by
  simp [padStart]
  omega

/-! ## `Math.floor` lemmas -/

/-- `Math.floor` is the identity on integral amounts. -/
theorem jsFloor_natCast (n : ℕ) : jsFloor (n : ℚ) = n := by
  unfold jsFloor
  rw [Rat.num_natCast, Rat.den_natCast]
  exact Int.fdiv_one _

/-- `Math.floor` of an amount strictly between 0 and 1 is 0. -/
theorem jsFloor_eq_zero (q : ℚ) (h0 : 0 < q) (h1 : q < 1) : jsFloor q = 0 := by
  unfold jsFloor
  have hnum : 0 < q.num := Rat.num_pos.mpr h0
  have hden : q.num < (q.den : ℤ) := Rat.lt_one_iff_num_lt_denom.mp h1
  rw [Int.fdiv_eq_ediv _ (by positivity)]
  exact Int.ediv_eq_zero_of_lt (by omega) hden

/-! ## `indexOf` / `replace` lemmas -/

/-- At the index reported by `indexOf`, the pattern indeed occurs. -/
theorem firstOccur_some_matches (pat : List Nat) :
    ∀ l p, firstOccur pat l = some p → pat <+: l.drop p := by
  intro l
  induction l with
  | nil =>
    intro p h
    unfold firstOccur at h
    split at h
    · cases h
      rename_i hpre
      simpa using List.isPrefixOf_iff_prefix.mp hpre
    · cases h
  | cons a t ih =>
    intro p h
    unfold firstOccur at h
    split at h
    · cases h
      rename_i hpre
      simpa using List.isPrefixOf_iff_prefix.mp hpre
    · rcases Option.map_eq_some'.mp h with ⟨q, hq, rfl⟩
      simpa using ih q hq

/-- `indexOf` reports the first occurrence: no earlier index matches. -/
theorem firstOccur_some_min (pat : List Nat) :
    ∀ l p, firstOccur pat l = some p → ∀ q < p, ¬ pat <+: l.drop q := by
  intro l
  induction l with
  | nil =>
    intro p h q hq
    unfold firstOccur at h
    split at h
    · cases h; omega
    · cases h
  | cons a t ih =>
    intro p h q hq
    unfold firstOccur at h
    split at h
    · cases h; omega
    · rcases Option.map_eq_some'.mp h with ⟨r, hr, rfl⟩
      match q with
      | 0 =>
        rename_i hpre
        simpa [List.isPrefixOf_iff_prefix] using hpre
      | q + 1 =>
        simpa using ih r hr q (by omega)

/-- When `indexOf` reports no occurrence, no index matches. -/
theorem firstOccur_none (pat : List Nat) :
    ∀ l, firstOccur pat l = none → ∀ q, ¬ pat <+: l.drop q := by
  intro l
  induction l with
  | nil =>
    intro h q
    unfold firstOccur at h
    split at h
    · cases h
    · rename_i hpre
      simpa [List.isPrefixOf_iff_prefix] using hpre
  | cons a t ih =>
    intro h q
    unfold firstOccur at h
    split at h
    · cases h
    · rename_i hpre
      have ht : firstOccur pat t = none := by
        cases hft : firstOccur pat t with
        | none => rfl
        | some r => rw [hft] at h; cases h
      match q with
      | 0 => simpa [List.isPrefixOf_iff_prefix] using hpre
      | q + 1 => simpa using ih ht q

/-- With no occurrence, `replace` returns the string unchanged. -/
theorem replaceFirst_of_none (pat rep : List Nat) :
    ∀ l, firstOccur pat l = none → replaceFirst pat rep l = l := by
  intro l
  induction l with
  | nil =>
    intro h
    unfold firstOccur at h
    split at h
    · cases h
    · rename_i hpre
      unfold replaceFirst
      rw [if_neg hpre]
  | cons a t ih =>
    intro h
    unfold firstOccur at h
    unfold replaceFirst
    split at h
    · cases h
    · rename_i hpre
      have ht : firstOccur pat t = none := by
        cases hft : firstOccur pat t with
        | none => rfl
        | some r => rw [hft] at h; cases h
      rw [if_neg (by simpa using hpre), ih ht]

/-- With a first occurrence at `p`, `replace` splices the replacement in
at `p` and leaves every other character in place. -/
theorem replaceFirst_of_some (pat rep : List Nat) :
    ∀ l p, firstOccur pat l = some p →
      replaceFirst pat rep l = l.take p ++ rep ++ l.drop (p + pat.length) := by
  intro l
  induction l with
  | nil =>
    intro p h
    unfold firstOccur at h
    split at h
    · cases h
      rename_i hpre
      unfold replaceFirst
      rw [if_pos hpre]
      simp
    · cases h
  | cons a t ih =>
    intro p h
    unfold firstOccur at h
    unfold replaceFirst
    split at h
    · cases h
      rename_i hpre
      rw [if_pos hpre]
      simp
    · rename_i hpre
      rcases Option.map_eq_some'.mp h with ⟨q, hq, rfl⟩
      rw [if_neg (by simpa using hpre), ih q hq]
      rw [show q + 1 + pat.length = (q + pat.length) + 1 by omega]
      simp

/-! ## Structure of successful `generateQrisString` calls -/

/-- The country-code tag is a non-empty pattern. -/
theorem tag5802_ne_nil : jstr "5802ID" ≠ [] := by decide

/-- The spliced string handed to the CRC is never empty. -/
theorem spliced_isEmpty_false (b : List Nat) (amt : ℚ) (p : Nat)
    (hfo : firstOccur (jstr "5802ID") (prepareBase b) = some p) :
    ((prepareBase b).take p ++ amountTag amt ++ (prepareBase b).drop p).isEmpty = false := by
  rw [List.isEmpty_eq_false]
  intro he
  rw [List.append_assoc, List.append_eq_nil, List.append_eq_nil] at he
  have hpre := firstOccur_some_matches _ _ _ hfo
  rw [he.2.2, List.prefix_nil] at hpre
  exact tag5802_ne_nil hpre

/-- A successful `generateQrisString` call is exactly: guards passed,
and the result is the prepared base with the amount tag spliced in at
the first occurrence of `5802ID`, followed by the rendered checksum. -/
theorem generateQris_ok_iff (b : List Nat) (amt : ℚ) (s : List Nat) :
    generateQrisString (some b) amt = .ok s ↔
      ¬ amt ≤ 0 ∧ b.isEmpty = false ∧ jsIncludes b (jstr "5802ID") = true ∧
      ∃ p, firstOccur (jstr "5802ID") (prepareBase b) = some p ∧
        s = (prepareBase b).take p ++ amountTag amt ++ (prepareBase b).drop p
            ++ padStart (natHexU (crc16 ((prepareBase b).take p ++ amountTag amt
              ++ (prepareBase b).drop p))) 4 48 := by
  constructor
  · intro h
    by_cases hamt : amt ≤ 0
    · exfalso; simp [generateQrisString, hamt] at h
    · cases hempty : b.isEmpty with
      | true => exfalso; simp [generateQrisString, hamt, hempty] at h
      | false =>
        cases hinc : jsIncludes b (jstr "5802ID") with
        | false => exfalso; simp [generateQrisString, hamt, hempty, hinc] at h
        | true =>
          cases hfo : firstOccur (jstr "5802ID") (prepareBase b) with
          | none => exfalso; simp [generateQrisString, hamt, hempty, hinc, hfo] at h
          | some p =>
            have hwne := spliced_isEmpty_false b amt p hfo
            simp only [generateQrisString, hamt, hempty, hinc, hfo, calculateCRC16, hwne,
              Bool.false_eq_true, Bool.true_eq_false, if_false, ite_false, Except.ok.injEq] at h
            exact ⟨hamt, rfl, rfl, p, rfl, h.symm⟩
  · rintro ⟨hamt, hempty, hinc, p, hfo, rfl⟩
    have hwne := spliced_isEmpty_false b amt p hfo
    simp only [generateQrisString, hamt, hempty, hinc, hfo, calculateCRC16, hwne,
      Bool.false_eq_true, Bool.true_eq_false, if_false, ite_false]

/-! ## Claim theorems -/

/-- C1: for every non-empty string, `calculateCRC16` returns the
CRC16-CCITT (poly 0x1021, init 0xFFFF, no final XOR) of its UTF-16 code
units rendered as exactly 4 uppercase hexadecimal digits; consequently
every successful `generateQrisString` result equals its first
`length - 4` characters followed by that checksum of those characters. -/
theorem C1_calculateCRC16_is_ccitt :
    (∀ s : List Nat, s ≠ [] →
        calculateCRC16 s = .ok (refRender (crc16Ref s))) ∧
    (∀ (b : Option (List Nat)) (amt : ℚ) (s : List Nat),
        generateQrisString b amt = .ok s →
        s = s.take (s.length - 4) ++ refRender (crc16Ref (s.take (s.length - 4)))) := by
  have hcalc : ∀ s : List Nat, s ≠ [] →
      calculateCRC16 s = .ok (refRender (crc16Ref s)) := by
    intro s hs
    unfold calculateCRC16
    rw [show s.isEmpty = false from List.isEmpty_eq_false.mpr hs]
    simp only [Bool.false_eq_true, if_false]
    rw [crc16_eq_crc16Ref, padded_hex_eq_refRender _ (crc16Ref_lt s)]
  refine ⟨hcalc, ?_⟩
  intro b amt s h
  cases b with
  | none =>
    exfalso
    unfold generateQrisString at h
    split at h
    · cases h
    · cases h
  | some b =>
    rcases (generateQris_ok_iff b amt s).mp h with ⟨_, _, _, p, hfo, rfl⟩
    set w := (prepareBase b).take p ++ amountTag amt ++ (prepareBase b).drop p with hw
    have hpad : padStart (natHexU (crc16 w)) 4 48 = refRender (crc16Ref w) := by
      rw [crc16_eq_crc16Ref, padded_hex_eq_refRender _ (crc16Ref_lt w)]
    rw [hpad]
    have hlen4 : (refRender (crc16Ref w)).length = 4 := rfl
    have hlen : (w ++ refRender (crc16Ref w)).length - 4 = w.length := by
      rw [List.length_append, hlen4]
      omega
    rw [hlen, List.take_left]

set_option maxRecDepth 4000 in
/-- C1 witness: the standard CCITT-FALSE test vector `"123456789"` has
checksum `0x29B1`, rendered `"29B1"`. -/
theorem C1_calculateCRC16_is_ccitt_witness :
    jstr "123456789" ≠ [] ∧
    calculateCRC16 (jstr "123456789") = .ok (refRender (crc16Ref (jstr "123456789"))) ∧
    refRender (crc16Ref (jstr "123456789")) = jstr "29B1" :=
  ⟨by decide, C1_calculateCRC16_is_ccitt.1 (jstr "123456789") (by decide), by decide⟩

/-- C3 counterexample: on `trickyBase` the byte sequence `010211` first
occurs inside the merchant-account element (tag `26`), and
`generateQrisString`'s preparation rewrites that occurrence, not the
point-of-initiation element: the prepared base differs from the
TLV-correct flip of tag `01`. -/
theorem C3_prepareBase_flips_wrong_occurrence :
    tlvFlipTag01 (stripLast4 trickyBase)
      = some (jstr "000201261001021100000102125802ID") ∧
    prepareBase trickyBase = jstr "000201261001021200000102115802ID" ∧
    prepareBase trickyBase ≠ jstr "000201261001021100000102125802ID" := by
  refine ⟨by decide, by decide, by decide⟩

/-- C3 amended: `generateQrisString` prepares the base by removing
exactly the last 4 characters and replacing the *first* occurrence of
`010211` anywhere in the stripped base (the tag-01 occurrence whenever
that one is first, as in canonical QRIS payloads) with `010212`,
leaving every character outside the replaced window unchanged; a base
without `010211` is left unchanged apart from the stripping. -/
theorem C3_prepareBase_replaces_first_occurrence (b : List Nat) :
    (firstOccur (jstr "010211") (stripLast4 b) = none →
       prepareBase b = stripLast4 b) ∧
    (∀ p, firstOccur (jstr "010211") (stripLast4 b) = some p →
       jstr "010211" <+: (stripLast4 b).drop p ∧
       (∀ q < p, ¬ jstr "010211" <+: (stripLast4 b).drop q) ∧
       prepareBase b
         = (stripLast4 b).take p ++ jstr "010212" ++ (stripLast4 b).drop (p + 6)) := by
  constructor
  · intro h
    unfold prepareBase
    exact replaceFirst_of_none _ _ _ h
  · intro p h
    refine ⟨firstOccur_some_matches _ _ _ h, firstOccur_some_min _ _ _ h, ?_⟩
    unfold prepareBase
    rw [replaceFirst_of_some _ _ _ _ h]
    rfl

/-- C3 amended witness: on `exampleBase` the first occurrence of
`010211` is at index 0 and the preparation replaces exactly it. -/
theorem C3_prepareBase_replaces_first_occurrence_witness :
    firstOccur (jstr "010211") (stripLast4 exampleBase) = some 0 ∧
    (jstr "010211" <+: (stripLast4 exampleBase).drop 0 ∧
     (∀ q < 0, ¬ jstr "010211" <+: (stripLast4 exampleBase).drop q) ∧
     prepareBase exampleBase
       = (stripLast4 exampleBase).take 0 ++ jstr "010212"
         ++ (stripLast4 exampleBase).drop (0 + 6)) :=
  ⟨by decide, (C3_prepareBase_replaces_first_occurrence exampleBase).2 0 (by decide)⟩

/-- C4: every string returned by `generateQrisString` is the prepared
(stripped, tag-flipped) base up to the first occurrence of the
country-code tag `5802ID`, then the amount TLV segment, then the
remainder of the base beginning with `5802ID`, then the 4-character
checksum; splitting and re-joining the base at that point moves no
other character. -/
theorem C4_amount_inserted_before_country_tag (b : List Nat) (amt : ℚ) (s : List Nat)
    (h : generateQrisString (some b) amt = .ok s) :
    ∃ p, firstOccur (jstr "5802ID") (prepareBase b) = some p ∧
      s = (prepareBase b).take p ++ amountTag amt ++ (prepareBase b).drop p
          ++ refRender (crc16Ref ((prepareBase b).take p ++ amountTag amt
            ++ (prepareBase b).drop p)) ∧
      jstr "5802ID" <+: (prepareBase b).drop p ∧
      (prepareBase b).take p ++ (prepareBase b).drop p = prepareBase b ∧
      (refRender (crc16Ref ((prepareBase b).take p ++ amountTag amt
        ++ (prepareBase b).drop p))).length = 4 := by
  rcases (generateQris_ok_iff b amt s).mp h with ⟨_, _, _, p, hfo, rfl⟩
  refine ⟨p, hfo, ?_, firstOccur_some_matches _ _ _ hfo, List.take_append_drop p _, rfl⟩
  rw [crc16_eq_crc16Ref, padded_hex_eq_refRender _ (crc16Ref_lt _)]

set_option maxRecDepth 8000 in
/-- C4 witness: a concrete run on `exampleBase` with amount 50000,
where the insertion point is index 6. -/
theorem C4_amount_inserted_before_country_tag_witness :
    ∃ p, firstOccur (jstr "5802ID") (prepareBase exampleBase) = some p ∧
      (prepareBase exampleBase).take 6 ++ amountTag 50000
          ++ (prepareBase exampleBase).drop 6
          ++ refRender (crc16Ref ((prepareBase exampleBase).take 6 ++ amountTag 50000
            ++ (prepareBase exampleBase).drop 6))
        = (prepareBase exampleBase).take p ++ amountTag 50000 ++ (prepareBase exampleBase).drop p
          ++ refRender (crc16Ref ((prepareBase exampleBase).take p ++ amountTag 50000
            ++ (prepareBase exampleBase).drop p)) ∧
      jstr "5802ID" <+: (prepareBase exampleBase).drop p ∧
      (prepareBase exampleBase).take p ++ (prepareBase exampleBase).drop p
        = prepareBase exampleBase ∧
      (refRender (crc16Ref ((prepareBase exampleBase).take p ++ amountTag 50000
        ++ (prepareBase exampleBase).drop p))).length = 4 :=
  C4_amount_inserted_before_country_tag exampleBase 50000
    ((prepareBase exampleBase).take 6 ++ amountTag 50000
      ++ (prepareBase exampleBase).drop 6
      ++ refRender (crc16Ref ((prepareBase exampleBase).take 6 ++ amountTag 50000
        ++ (prepareBase exampleBase).drop 6))) (by rfl)

set_option maxRecDepth 8000 in
/-- C5 counterexample: for the accepted amount `10^21`, `toString`
prints the exponent form `"1e+21"`, so the inserted segment is
`"54051e+21"`: the characters after the length field are not the
decimal representation of `Math.floor(amount)`, and the two-character
field reads 5 rather than the 22-digit count of that representation. -/
theorem C5_decimal_rendering_fails_at_1e21 :
    amountTag ((10 ^ 21 : ℕ) : ℚ) = jstr "54" ++ jstr "05" ++ jstr "1e+21" ∧
    amountTag ((10 ^ 21 : ℕ) : ℚ)
      ≠ jstr "54"
        ++ padStart (natDecimal (natDecimal ((jsFloor ((10 ^ 21 : ℕ) : ℚ)).toNat)).length) 2 48
        ++ natDecimal ((jsFloor ((10 ^ 21 : ℕ) : ℚ)).toNat) ∧
    jstr "1e+21" ≠ natDecimal ((jsFloor ((10 ^ 21 : ℕ) : ℚ)).toNat) ∧
    digitsToNat (jstr "05") = 5 ∧
    (natDecimal ((jsFloor ((10 ^ 21 : ℕ) : ℚ)).toNat)).length = 22 :=
  ⟨by decide, by decide, by decide, by decide, by decide⟩

/-- C5 amended: for every accepted amount whose integer part is below
`10^21` — the range in which `toString` prints plain decimal — the
inserted segment is `"54"`, then the digit count of
`Math.floor(amount)` written as exactly two characters, then
`Math.floor(amount)` in decimal (e.g. amount 50000 gives
`"540550000"`); the two-character field reads back as exactly that
digit count. -/
theorem C5_amount_segment_format (amt : ℚ) (_h0 : ¬ amt ≤ 0)
    (hlt : (jsFloor amt).toNat < 10 ^ 21) :
    amountTag amt
      = jstr "54" ++ padStart (natDecimal (natDecimal ((jsFloor amt).toNat)).length) 2 48
        ++ natDecimal ((jsFloor amt).toNat) ∧
    (padStart (natDecimal (natDecimal ((jsFloor amt).toNat)).length) 2 48).length = 2 ∧
    digitsToNat (padStart (natDecimal (natDecimal ((jsFloor amt).toNat)).length) 2 48)
      = (natDecimal ((jsFloor amt).toNat)).length := by
  have hs : jsNumToString ((jsFloor amt).toNat) = natDecimal ((jsFloor amt).toNat) :=
    jsNumToString_small _ hlt
  refine ⟨?_, ?_, ?_⟩
  · unfold amountTag
    rw [hs]
  · rw [padStart_length]
    have hd : (natDecimal ((jsFloor amt).toNat)).length ≤ 21 :=
      natDecimal_length_le 21 _ hlt (by omega)
    have h2 : (natDecimal (natDecimal ((jsFloor amt).toNat)).length).length ≤ 2 :=
      natDecimal_length_le 2 _ (by omega) (by omega)
    omega
  · unfold padStart
    rw [digitsToNat_replicate_zero, digitsToNat_natDecimal]

/-- C5 amended witness: amount 50000 yields segment `"540550000"`. -/
theorem C5_amount_segment_format_witness :
    ¬ (50000 : ℚ) ≤ 0 ∧
    (jsFloor (50000 : ℚ)).toNat < 10 ^ 21 ∧
    ((padStart (natDecimal (natDecimal ((jsFloor (50000 : ℚ)).toNat)).length) 2 48).length = 2 ∧
     digitsToNat (padStart (natDecimal (natDecimal ((jsFloor (50000 : ℚ)).toNat)).length) 2 48)
       = (natDecimal ((jsFloor (50000 : ℚ)).toNat)).length) ∧
    amountTag (50000 : ℚ) = jstr "540550000" :=
  ⟨by decide, by decide,
   (C5_amount_segment_format 50000 (by decide) (by decide)).2,
   by decide⟩

set_option maxRecDepth 8000 in
/-- C2 counterexample: for the integer amount `10^21` the generation
succeeds, but `toString` prints `"1e+21"`, so the inserted segment is
`"54051e+21"`: its two-digit length field reads back 5 while the
amount has 22 decimal digits, and the characters after the field do
not read back as the amount. -/
theorem C2_roundtrip_fails_at_1e21 :
    generateQrisString (some exampleBase) ((10 ^ 21 : ℕ) : ℚ)
      = .ok ((prepareBase exampleBase).take 6 ++ amountTag ((10 ^ 21 : ℕ) : ℚ)
          ++ (prepareBase exampleBase).drop 6
          ++ refRender (crc16Ref ((prepareBase exampleBase).take 6
            ++ amountTag ((10 ^ 21 : ℕ) : ℚ) ++ (prepareBase exampleBase).drop 6))) ∧
    amountTag ((10 ^ 21 : ℕ) : ℚ) = jstr "54051e+21" ∧
    digitsToNat (((amountTag ((10 ^ 21 : ℕ) : ℚ)).drop 2).take 2) = 5 ∧
    (natDecimal ((jsFloor ((10 ^ 21 : ℕ) : ℚ)).toNat)).length = 22 ∧
    digitsToNat (((amountTag ((10 ^ 21 : ℕ) : ℚ)).drop 2).take 2)
      ≠ (natDecimal ((jsFloor ((10 ^ 21 : ℕ) : ℚ)).toNat)).length ∧
    digitsToNat (((amountTag ((10 ^ 21 : ℕ) : ℚ)).drop 2).drop 2)
      ≠ (jsFloor ((10 ^ 21 : ℕ) : ℚ)).toNat := by
  refine ⟨?_, by decide, by decide, by decide, by decide, by decide⟩
  refine (generateQris_ok_iff exampleBase _ _).mpr ⟨?_, rfl, by decide, 6, by decide, ?_⟩
  · rw [not_le]
    exact_mod_cast Nat.pos_of_ne_zero (by positivity)
  · rw [crc16_eq_crc16Ref, padded_hex_eq_refRender _ (crc16Ref_lt _)]

/-- C2 amended: for every base whose prepared form still contains
`5802ID` and every integer amount `X` with `1 ≤ X < 10^21` — the range
in which `toString` prints plain decimal — the generation succeeds
with the amount segment spliced in before the `5802ID` remainder, and
that segment decodes back to exactly `X`: it is `"54"`, a
two-character length field reading back as the digit count of `X`,
then the decimal digits of `X` reading back as `X`. -/
theorem C2_amount_roundtrip (b : List Nat) (X : ℕ) (p : ℕ)
    (h1 : 1 ≤ X) (h2 : X < 10 ^ 21)
    (hinc : jsIncludes b (jstr "5802ID") = true)
    (hfo : firstOccur (jstr "5802ID") (prepareBase b) = some p) :
    generateQrisString (some b) (X : ℚ)
      = .ok ((prepareBase b).take p ++ amountTag (X : ℚ) ++ (prepareBase b).drop p
          ++ padStart (natHexU (crc16 ((prepareBase b).take p ++ amountTag (X : ℚ)
            ++ (prepareBase b).drop p))) 4 48) ∧
    jstr "5802ID" <+: (prepareBase b).drop p ∧
    amountTag (X : ℚ)
      = jstr "54" ++ padStart (natDecimal (natDecimal X).length) 2 48 ++ natDecimal X ∧
    (padStart (natDecimal (natDecimal X).length) 2 48).length = 2 ∧
    digitsToNat (padStart (natDecimal (natDecimal X).length) 2 48)
      = (natDecimal X).length ∧
    digitsToNat (natDecimal X) = X := by
  have hfloor : (jsFloor (X : ℚ)).toNat = X := by
    rw [jsFloor_natCast, Int.toNat_natCast]
  have hamt : ¬ (X : ℚ) ≤ 0 := by
    rw [not_le]
    exact_mod_cast Nat.pos_of_ne_zero (by omega)
  have hempty : b.isEmpty = false := by
    cases b with
    | nil => rw [show jsIncludes [] (jstr "5802ID") = false from rfl] at hinc; cases hinc
    | cons a t => rfl
  refine ⟨(generateQris_ok_iff b (X : ℚ) _).mpr ⟨hamt, hempty, hinc, p, hfo, rfl⟩,
    firstOccur_some_matches _ _ _ hfo, ?_, ?_, ?_, digitsToNat_natDecimal X⟩
  · unfold amountTag
    rw [hfloor, jsNumToString_small X h2]
  · rw [padStart_length]
    have hdiglen : (natDecimal X).length ≤ 21 := natDecimal_length_le 21 X h2 (by omega)
    have h2d : (natDecimal (natDecimal X).length).length ≤ 2 :=
      natDecimal_length_le 2 _ (by omega) (by omega)
    omega
  · unfold padStart
    rw [digitsToNat_replicate_zero, digitsToNat_natDecimal]

/-- C2 amended witness: `exampleBase` with amount 50000, inserted at
index 6; the segment `"540550000"` decodes back to 50000. -/
theorem C2_amount_roundtrip_witness :
    (1 ≤ 50000 ∧ 50000 < 10 ^ 21 ∧
     jsIncludes exampleBase (jstr "5802ID") = true ∧
     firstOccur (jstr "5802ID") (prepareBase exampleBase) = some 6) ∧
    (generateQrisString (some exampleBase) ((50000 : ℕ) : ℚ)
      = .ok ((prepareBase exampleBase).take 6 ++ amountTag ((50000 : ℕ) : ℚ)
          ++ (prepareBase exampleBase).drop 6
          ++ padStart (natHexU (crc16 ((prepareBase exampleBase).take 6
            ++ amountTag ((50000 : ℕ) : ℚ) ++ (prepareBase exampleBase).drop 6))) 4 48) ∧
     jstr "5802ID" <+: (prepareBase exampleBase).drop 6 ∧
     amountTag ((50000 : ℕ) : ℚ)
       = jstr "54" ++ padStart (natDecimal (natDecimal 50000).length) 2 48
         ++ natDecimal 50000 ∧
     (padStart (natDecimal (natDecimal 50000).length) 2 48).length = 2 ∧
     digitsToNat (padStart (natDecimal (natDecimal 50000).length) 2 48)
       = (natDecimal 50000).length ∧
     digitsToNat (natDecimal 50000) = 50000) :=
  ⟨⟨by decide, by decide, by decide, by decide⟩,
   C2_amount_roundtrip exampleBase 50000 6 (by decide) (by decide) (by decide) (by decide)⟩

/-- C8: amounts strictly between 0 and 1 pass the amount guard (it
rejects only falsy or non-positive amounts), and any QRIS string built
for them carries the transaction-amount segment `"54010"`, encoding a
payment amount of zero. -/
theorem C8_fractional_amount_encodes_zero (b : Option (List Nat)) (amt : ℚ)
    (h0 : 0 < amt) (h1 : amt < 1) :
    (∀ e : OKError, generateQrisString b amt = .error e →
       e.code ≠ ErrCode.INVALID_AMOUNT) ∧
    amountTag amt = jstr "54010" ∧
    (∀ s, generateQrisString b amt = .ok s →
       ∃ b' p, b = some b' ∧ firstOccur (jstr "5802ID") (prepareBase b') = some p ∧
         s = (prepareBase b').take p ++ jstr "54010" ++ (prepareBase b').drop p
             ++ refRender (crc16Ref ((prepareBase b').take p ++ jstr "54010"
               ++ (prepareBase b').drop p))) := by
  have hle : ¬ amt ≤ 0 := not_le.mpr h0
  have htag : amountTag amt = jstr "54010" := by
    unfold amountTag
    rw [jsFloor_eq_zero amt h0 h1]
    decide
  refine ⟨?_, htag, ?_⟩
  · intro e he
    cases b with
    | none =>
      simp only [generateQrisString, hle, Bool.false_eq_true, if_false,
        Except.error.injEq] at he
      rw [← he]
      decide
    | some b' =>
      cases hempty : b'.isEmpty with
      | true =>
        simp only [generateQrisString, hle, hempty, Bool.false_eq_true, if_false, if_true,
          Except.error.injEq] at he
        rw [← he]
        decide
      | false =>
        cases hinc : jsIncludes b' (jstr "5802ID") with
        | false =>
          simp only [generateQrisString, hle, hempty, hinc, Bool.false_eq_true,
            Bool.true_eq_false, if_false, if_true, Except.error.injEq] at he
          rw [← he]
          decide
        | true =>
          cases hfo : firstOccur (jstr "5802ID") (prepareBase b') with
          | none =>
            simp only [generateQrisString, hle, hempty, hinc, hfo, Bool.false_eq_true,
              Bool.true_eq_false, if_false, if_true, Except.error.injEq] at he
            rw [← he]
            decide
          | some p =>
            have hwne := spliced_isEmpty_false b' amt p hfo
            simp only [generateQrisString, hle, hempty, hinc, hfo, calculateCRC16, hwne,
              Bool.false_eq_true, Bool.true_eq_false, if_false, if_true] at he
            cases he
  · intro s hs
    cases b with
    | none =>
      exfalso
      unfold generateQrisString at hs
      split at hs
      · cases hs
      · cases hs
    | some b' =>
      rcases (generateQris_ok_iff b' amt s).mp hs with ⟨_, _, _, p, hfo, rfl⟩
      refine ⟨b', p, rfl, hfo, ?_⟩
      rw [crc16_eq_crc16Ref, padded_hex_eq_refRender _ (crc16Ref_lt _), htag]

/-- C8 witness: amount `1/2` against `exampleBase`: no
`INVALID_AMOUNT`, and the segment is `"54010"`. -/
theorem C8_fractional_amount_encodes_zero_witness :
    (0 < halfQ ∧ halfQ < 1) ∧
    ((∀ e : OKError, generateQrisString (some exampleBase) halfQ = .error e →
        e.code ≠ ErrCode.INVALID_AMOUNT) ∧
     amountTag halfQ = jstr "54010" ∧
     (∀ s, generateQrisString (some exampleBase) halfQ = .ok s →
        ∃ b' p, some exampleBase = some b' ∧
          firstOccur (jstr "5802ID") (prepareBase b') = some p ∧
          s = (prepareBase b').take p ++ jstr "54010" ++ (prepareBase b').drop p
              ++ refRender (crc16Ref ((prepareBase b').take p ++ jstr "54010"
                ++ (prepareBase b').drop p)))) :=
  ⟨⟨by decide, by decide⟩,
   C8_fractional_amount_encodes_zero (some exampleBase) halfQ (by decide) (by decide)⟩

/-- C9: for every configuration and amount at least 1,
`isQrisGenerationAvailable` returns `true` exactly when
`generateQrisString` raises neither the `MISSING_BASE_QR_STRING` error
nor the missing-country-code `INVALID_QRIS_FORMAT` error — both consult
the same condition (baseQrString set and containing `5802ID`). -/
theorem C9_availability_matches_guards (b : Option (List Nat)) (amt : ℚ)
    (h1 : 1 ≤ amt) :
    isQrisGenerationAvailable b = true ↔
      (generateQrisString b amt
         ≠ .error ⟨jstr "Base QR string is required for QRIS generation. Please provide baseQrString in configuration.",
                   .MISSING_BASE_QR_STRING, none⟩ ∧
       generateQrisString b amt
         ≠ .error ⟨jstr "Invalid QRIS format: missing Indonesian country code (5802ID)",
                   .INVALID_QRIS_FORMAT, none⟩) := by
  have hle : ¬ amt ≤ 0 := by
    rw [not_le]
    calc (0 : ℚ) < 1 := by norm_num
      _ ≤ amt := h1
  constructor
  · intro havail
    cases b with
    | none => simp [isQrisGenerationAvailable] at havail
    | some b' =>
      cases hempty : b'.isEmpty with
      | true => rw [isQrisGenerationAvailable, hempty] at havail; simp at havail
      | false =>
        cases hinc : jsIncludes b' (jstr "5802ID") with
        | false =>
          rw [isQrisGenerationAvailable, hempty] at havail
          simp only [Bool.false_eq_true, if_false] at havail
          rw [hinc] at havail
          cases havail
        | true =>
          constructor <;>
          · intro hcontr
            cases hfo : firstOccur (jstr "5802ID") (prepareBase b') with
            | none =>
              simp only [generateQrisString, hle, hempty, hinc, hfo, Bool.false_eq_true,
                Bool.true_eq_false, if_false, if_true, Except.error.injEq] at hcontr
              exact absurd (congrArg OKError.message hcontr) (by decide)
            | some p =>
              have hwne := spliced_isEmpty_false b' amt p hfo
              simp only [generateQrisString, hle, hempty, hinc, hfo, calculateCRC16, hwne,
                Bool.false_eq_true, Bool.true_eq_false, if_false, if_true] at hcontr
              cases hcontr
  · rintro ⟨hmb, hcc⟩
    cases b with
    | none =>
      exfalso
      apply hmb
      simp only [generateQrisString, hle, Bool.false_eq_true, if_false]
    | some b' =>
      cases hempty : b'.isEmpty with
      | true =>
        exfalso
        apply hmb
        simp only [generateQrisString, hle, hempty, Bool.false_eq_true, if_false, if_true]
      | false =>
        cases hinc : jsIncludes b' (jstr "5802ID") with
        | false =>
          exfalso
          apply hcc
          simp only [generateQrisString, hle, hempty, hinc, Bool.false_eq_true,
            Bool.true_eq_false, if_false, if_true]
        | true =>
          rw [isQrisGenerationAvailable, hempty]
          simp only [Bool.false_eq_true, if_false]
          exact hinc

/-- C9 witness: with `exampleBase` configured and amount 1 the
equivalence is inhabited on the `true` side. -/
theorem C9_availability_matches_guards_witness :
    (1 : ℚ) ≤ 1 ∧
    (isQrisGenerationAvailable (some exampleBase) = true ↔
      (generateQrisString (some exampleBase) 1
         ≠ .error ⟨jstr "Base QR string is required for QRIS generation. Please provide baseQrString in configuration.",
                   .MISSING_BASE_QR_STRING, none⟩ ∧
       generateQrisString (some exampleBase) 1
         ≠ .error ⟨jstr "Invalid QRIS format: missing Indonesian country code (5802ID)",
                   .INVALID_QRIS_FORMAT, none⟩)) :=
  ⟨by decide, C9_availability_matches_guards (some exampleBase) 1 (by decide)⟩

/-- C10: `getConfig` reveals only `username` and `userid`: it returns
exactly those two fields, so any two instances agreeing on them —
whatever their password, pin, apikey or baseQrString — produce
identical results. -/
theorem C10_getConfig_hides_secrets :
    (∀ o : OrderKuota, (o.getConfig).1 = ⟨o.username, o.userid⟩) ∧
    (∀ o₁ o₂ : OrderKuota, o₁.username = o₂.username → o₁.userid = o₂.userid →
       (o₁.getConfig).1 = (o₂.getConfig).1) := by
  refine ⟨fun o => rfl, fun o₁ o₂ hu hi => ?_⟩
  show (⟨o₁.username, o₁.userid⟩ : PublicConfig) = ⟨o₂.username, o₂.userid⟩
  rw [hu, hi]

/-- C10 witness: two instances sharing `username`/`userid` but with
different passwords, pins, apikeys and base strings give the same
`getConfig` result. -/
theorem C10_getConfig_hides_secrets_witness :
    (OrderKuota.getConfig ⟨jstr "u", jstr "1234", jstr "id9", jstr "k1", jstr "pw1",
        some exampleBase⟩).1
      = (OrderKuota.getConfig ⟨jstr "u", jstr "9999", jstr "id9", jstr "k2", jstr "pw2",
          none⟩).1 :=
  C10_getConfig_hides_secrets.2
    ⟨jstr "u", jstr "1234", jstr "id9", jstr "k1", jstr "pw1", some exampleBase⟩
    ⟨jstr "u", jstr "9999", jstr "id9", jstr "k2", jstr "pw2", none⟩
    (by decide) (by decide)

/-! ## Error-code classification helpers -/

/-- Membership of an error's code-string transfers along an
identification of the code. -/
theorem code_mem_of (e : OKError) (c : ErrCode) (hc : e.code = c)
    (hm : codeStr c ∈ declaredErrorCodes) : codeStr e.code ∈ declaredErrorCodes := by
  rw [hc]
  exact hm

/-- Every error value `generateQrisString` can produce carries one of
its four guard/CRC codes. -/
theorem generateQrisString_error_code (b : Option (List Nat)) (amt : ℚ) (e : OKError)
    (h : generateQrisString b amt = .error e) :
    e.code = .INVALID_AMOUNT ∨ e.code = .MISSING_BASE_QR_STRING
      ∨ e.code = .INVALID_QRIS_FORMAT ∨ e.code = .CRC_CALCULATION_FAILED := by
  by_cases hle : amt ≤ 0
  · simp only [generateQrisString, eq_true hle, if_true, Except.error.injEq] at h
    rw [← h]
    decide
  · cases b with
    | none =>
      simp only [generateQrisString, hle, Bool.false_eq_true, if_false,
        Except.error.injEq] at h
      rw [← h]
      decide
    | some b' =>
      cases hempty : b'.isEmpty with
      | true =>
        simp only [generateQrisString, hle, hempty, Bool.false_eq_true, if_false, if_true,
          Except.error.injEq] at h
        rw [← h]
        decide
      | false =>
        cases hinc : jsIncludes b' (jstr "5802ID") with
        | false =>
          simp only [generateQrisString, hle, hempty, hinc, Bool.false_eq_true,
            Bool.true_eq_false, if_false, if_true, Except.error.injEq] at h
          rw [← h]
          decide
        | true =>
          cases hfo : firstOccur (jstr "5802ID") (prepareBase b') with
          | none =>
            simp only [generateQrisString, hle, hempty, hinc, hfo, Bool.false_eq_true,
              Bool.true_eq_false, if_false, if_true, Except.error.injEq] at h
            rw [← h]
            decide
          | some p =>
            have hwne := spliced_isEmpty_false b' amt p hfo
            simp only [generateQrisString, hle, hempty, hinc, hfo, calculateCRC16, hwne,
              Bool.false_eq_true, Bool.true_eq_false, if_false, if_true] at h
            cases h

/-- C6: every error any public operation of the classic client can
raise is an `OKError` whose code's string belongs to the closed
17-member set declared by the `OrderKuotaErrorCode` type alias (the
optional numeric HTTP status is the `status` field of `OKError`). -/
theorem C6_error_codes_from_declared_set :
    (∀ (cfg : OrderKuotaConfig) (e : OKError), mkOrderKuota cfg = .error e →
        codeStr e.code ∈ declaredErrorCodes) ∧
    (∀ (o : OrderKuota) (resp : BalanceHttp) (e : OKError),
        (o.checkBalance resp).1 = .error e → codeStr e.code ∈ declaredErrorCodes) ∧
    (∀ (α : Type) (o : OrderKuota) (resp : FetchHttp α) (e : OKError),
        (o.fetchQrisHistory resp).1 = .error e → codeStr e.code ∈ declaredErrorCodes) ∧
    (∀ (α : Type) (o : OrderKuota) (resp : FetchHttp α) (e : OKError),
        (o.fetchVirtualAccountHistory resp).1 = .error e →
          codeStr e.code ∈ declaredErrorCodes) ∧
    (∀ (α : Type) (o : OrderKuota) (resp : FetchHttp α) (e : OKError),
        (o.fetchRetailHistory resp).1 = .error e → codeStr e.code ∈ declaredErrorCodes) ∧
    (∀ (b : Option (List Nat)) (amt : ℚ) (e : OKError),
        generateQrisString b amt = .error e → codeStr e.code ∈ declaredErrorCodes) ∧
    (∀ (o : OrderKuota) (qrisString : List Nat) (resp : QrHttp) (e : OKError),
        (o.generateQrisImage qrisString resp).1 = .error e →
          codeStr e.code ∈ declaredErrorCodes) ∧
    (∀ (o : OrderKuota) (amt : ℚ) (resp : QrHttp) (e : OKError),
        (o.generateQrisQrCode amt resp).1 = .error e →
          codeStr e.code ∈ declaredErrorCodes) := by
  have hqris : ∀ (b : Option (List Nat)) (amt : ℚ) (e : OKError),
      generateQrisString b amt = .error e → codeStr e.code ∈ declaredErrorCodes := by
    intro b amt e h
    rcases generateQrisString_error_code b amt e h with h' | h' | h' | h' <;>
      exact code_mem_of e _ h' (by decide)
  have himg : ∀ (o : OrderKuota) (qrisString : List Nat) (resp : QrHttp) (e : OKError),
      (o.generateQrisImage qrisString resp).1 = .error e →
        codeStr e.code ∈ declaredErrorCodes := by
    intro o q resp e h
    cases resp with
    | ok dataUrl =>
      simp only [OrderKuota.generateQrisImage, Except.error.injEq] at h
      split at h
      · injection h with hinj
        exact code_mem_of e _
          (show e.code = ErrCode.INVALID_QRIS_STRING from
            (congrArg OKError.code hinj).symm) (by decide)
      · split at h
        · injection h with hinj
          exact code_mem_of e _
            (show e.code = ErrCode.QR_GENERATION_FAILED from
              (congrArg OKError.code hinj).symm) (by decide)
        · split at h
          · injection h with hinj
            exact code_mem_of e _
              (show e.code = ErrCode.QR_GENERATION_FAILED from
                (congrArg OKError.code hinj).symm) (by decide)
          · cases h
    | libFail m =>
      simp only [OrderKuota.generateQrisImage, Except.error.injEq] at h
      split at h
      · injection h with hinj
        exact code_mem_of e _
          (show e.code = ErrCode.INVALID_QRIS_STRING from
            (congrArg OKError.code hinj).symm) (by decide)
      · injection h with hinj
        exact code_mem_of e _
          (show e.code = ErrCode.QR_GENERATION_FAILED from
            (congrArg OKError.code hinj).symm) (by decide)
  refine ⟨?_, ?_, ?_, ?_, ?_, hqris, himg, ?_⟩
  · intro cfg e h
    unfold mkOrderKuota at h
    split at h
    · injection h with hinj
      exact code_mem_of e _
        (show e.code = ErrCode.MISSING_CONFIG from
          (congrArg OKError.code hinj).symm) (by decide)
    · cases h
  · intro o resp e h
    cases resp with
    | strData body =>
      simp only [OrderKuota.checkBalance, Except.error.injEq] at h
      split at h
      · injection h with hinj
        exact code_mem_of e _
          (show e.code = ErrCode.EMPTY_RESPONSE from
            (congrArg OKError.code hinj).symm) (by decide)
      · split at h
        · injection h with hinj
          exact code_mem_of e _
            (show e.code = ErrCode.API_ERROR from
              (congrArg OKError.code hinj).symm) (by decide)
        · cases h
    | objData status message balance =>
      simp only [OrderKuota.checkBalance, Except.error.injEq] at h
      split at h
      · injection h with hinj
        exact code_mem_of e _
          (show e.code = ErrCode.BALANCE_CHECK_FAILED from
            (congrArg OKError.code hinj).symm) (by decide)
      · cases h
    | otherData =>
      simp only [OrderKuota.checkBalance, Except.error.injEq] at h
      exact code_mem_of e _
        (show e.code = ErrCode.INVALID_RESPONSE from
          (congrArg OKError.code h).symm) (by decide)
    | axiosFail status message =>
      simp only [OrderKuota.checkBalance, Except.error.injEq] at h
      exact code_mem_of e _
        (show e.code = ErrCode.NETWORK_ERROR from
          (congrArg OKError.code h).symm) (by decide)
    | unknownFail =>
      simp only [OrderKuota.checkBalance, Except.error.injEq] at h
      exact code_mem_of e _
        (show e.code = ErrCode.UNKNOWN_ERROR from
          (congrArg OKError.code h).symm) (by decide)
  · intro α o resp e h
    cases resp with
    | ok d => cases h
    | axiosFail status message =>
      simp only [OrderKuota.fetchQrisHistory, Except.error.injEq] at h
      exact code_mem_of e _
        (show e.code = ErrCode.QRIS_FETCH_FAILED from
          (congrArg OKError.code h).symm) (by decide)
    | unknownFail =>
      simp only [OrderKuota.fetchQrisHistory, Except.error.injEq] at h
      exact code_mem_of e _
        (show e.code = ErrCode.UNKNOWN_ERROR from
          (congrArg OKError.code h).symm) (by decide)
  · intro α o resp e h
    cases resp with
    | ok d => cases h
    | axiosFail status message =>
      simp only [OrderKuota.fetchVirtualAccountHistory, Except.error.injEq] at h
      exact code_mem_of e _
        (show e.code = ErrCode.VA_FETCH_FAILED from
          (congrArg OKError.code h).symm) (by decide)
    | unknownFail =>
      simp only [OrderKuota.fetchVirtualAccountHistory, Except.error.injEq] at h
      exact code_mem_of e _
        (show e.code = ErrCode.UNKNOWN_ERROR from
          (congrArg OKError.code h).symm) (by decide)
  · intro α o resp e h
    cases resp with
    | ok d => cases h
    | axiosFail status message =>
      simp only [OrderKuota.fetchRetailHistory, Except.error.injEq] at h
      exact code_mem_of e _
        (show e.code = ErrCode.RETAIL_FETCH_FAILED from
          (congrArg OKError.code h).symm) (by decide)
    | unknownFail =>
      simp only [OrderKuota.fetchRetailHistory, Except.error.injEq] at h
      exact code_mem_of e _
        (show e.code = ErrCode.UNKNOWN_ERROR from
          (congrArg OKError.code h).symm) (by decide)
  · intro o amt resp e h
    unfold OrderKuota.generateQrisQrCode at h
    cases hg : generateQrisString o.baseQrString amt with
    | error e' =>
      rw [hg] at h
      injection h with h'
      rw [← h']
      exact hqris o.baseQrString amt e' hg
    | ok q =>
      rw [hg] at h
      exact himg o q resp e h

/-- C6 witness: the constructor with an all-empty configuration raises
`MISSING_CONFIG`, whose string is in the declared set. -/
theorem C6_error_codes_from_declared_set_witness :
    codeStr (OKError.code
      ⟨jstr "Missing required configuration. All fields (username, password, userid, apikey, pin) are required.",
       .MISSING_CONFIG, none⟩) ∈ declaredErrorCodes :=
  C6_error_codes_from_declared_set.1 ⟨[], [], [], [], [], none⟩
    ⟨jstr "Missing required configuration. All fields (username, password, userid, apikey, pin) are required.",
     .MISSING_CONFIG, none⟩ (by rfl)

/-- C7: no public operation of either client changes the credential or
configuration fields: the classic client's instance is returned
entirely unchanged by every operation, and in the token-based client
every operation other than `getToken` and `setToken` returns the
instance unchanged, while those two preserve `username`, `password`
and `baseQrString` — the cached token is the only mutable state. -/
theorem C7_operations_preserve_credentials :
    (∀ (o : OrderKuota) (resp : BalanceHttp), (o.checkBalance resp).2 = o) ∧
    (∀ (α : Type) (o : OrderKuota) (resp : FetchHttp α),
       (o.fetchQrisHistory resp).2 = o) ∧
    (∀ (α : Type) (o : OrderKuota) (resp : FetchHttp α),
       (o.fetchVirtualAccountHistory resp).2 = o) ∧
    (∀ (α : Type) (o : OrderKuota) (resp : FetchHttp α),
       (o.fetchRetailHistory resp).2 = o) ∧
    (∀ (o : OrderKuota) (amt : ℚ), (o.generateQrisStringM amt).2 = o) ∧
    (∀ (o : OrderKuota) (q : List Nat) (resp : QrHttp),
       (o.generateQrisImage q resp).2 = o) ∧
    (∀ (o : OrderKuota) (amt : ℚ) (resp : QrHttp),
       (o.generateQrisQrCode amt resp).2 = o) ∧
    (∀ o : OrderKuota, (o.getConfig).2 = o) ∧
    (∀ o : OrderKuota, (o.isConfigValid).2 = o) ∧
    (∀ o : OrderKuota, (o.isQrisGenerationAvailableM).2 = o) ∧
    (∀ (s : OrderKuotaV2) (resp : PostHttp OtpData), (s.getOTP resp).2 = s) ∧
    (∀ (α : Type) (s : OrderKuotaV2) (resp : PostHttp α),
       (s.getQRISHistory resp).2 = s) ∧
    (∀ (s : OrderKuotaV2) (resp : PostHttp MenuData), (s.fetchQrisMenu resp).2 = s) ∧
    (∀ (α : Type) (s : OrderKuotaV2) (amt : ℚ) (resp : PostHttp α),
       (s.generateQRISAjaib amt resp).2 = s) ∧
    (∀ (s : OrderKuotaV2) (resp : PostHttp MenuData), (s.checkBalance resp).2 = s) ∧
    (∀ (s : OrderKuotaV2) (q : List Nat) (resp : QrHttp),
       (s.generateQRImage q resp).2 = s) ∧
    (∀ s : OrderKuotaV2, (s.getTokenValue).2 = s) ∧
    (∀ s : OrderKuotaV2, (s.getConfig).2 = s) ∧
    (∀ s : OrderKuotaV2, (s.isConfigValid).2 = s) ∧
    (∀ s : OrderKuotaV2, (s.hasToken).2 = s) ∧
    (∀ (s : OrderKuotaV2) (otp : List Nat) (resp : PostHttp TokData),
       (s.getToken otp resp).2.username = s.username ∧
       (s.getToken otp resp).2.password = s.password ∧
       (s.getToken otp resp).2.baseQrString = s.baseQrString) ∧
    (∀ (s : OrderKuotaV2) (tok : List Nat),
       (s.setToken tok).2.username = s.username ∧
       (s.setToken tok).2.password = s.password ∧
       (s.setToken tok).2.baseQrString = s.baseQrString) := by
  refine ⟨?_, ?_, ?_, ?_, ?_, ?_, ?_, ?_, ?_, ?_, ?_, ?_, ?_, ?_, ?_, ?_, ?_, ?_, ?_,
    ?_, ?_, ?_⟩
  · intro o resp
    cases resp <;> simp only [OrderKuota.checkBalance] <;> (repeat' split) <;> rfl
  · intro α o resp
    cases resp <;> rfl
  · intro α o resp
    cases resp <;> rfl
  · intro α o resp
    cases resp <;> rfl
  · intro o amt
    rfl
  · intro o q resp
    cases resp <;> simp only [OrderKuota.generateQrisImage] <;> (repeat' split) <;> rfl
  · intro o amt resp
    unfold OrderKuota.generateQrisQrCode
    split
    · rfl
    · cases resp <;> simp only [OrderKuota.generateQrisImage] <;> (repeat' split) <;> rfl
  · intro o
    rfl
  · intro o
    rfl
  · intro o
    rfl
  · intro s resp
    cases resp <;> simp only [OrderKuotaV2.getOTP] <;> (repeat' split) <;> rfl
  · intro α s resp
    cases resp <;> (simp only [OrderKuotaV2.getQRISHistory]; (repeat' split) <;> rfl)
  · intro s resp
    cases resp <;> simp only [OrderKuotaV2.fetchQrisMenu] <;> (repeat' split) <;> rfl
  · intro α s amt resp
    cases resp <;> simp only [OrderKuotaV2.generateQRISAjaib] <;> (repeat' split) <;> rfl
  · intro s resp
    cases resp <;> simp only [OrderKuotaV2.checkBalance, OrderKuotaV2.fetchQrisMenu] <;>
      (repeat' split) <;> rfl
  · intro s q resp
    cases resp <;> simp only [OrderKuotaV2.generateQRImage] <;> (repeat' split) <;> rfl
  · intro s
    rfl
  · intro s
    rfl
  · intro s
    rfl
  · intro s
    rfl
  · intro s otp resp
    refine ⟨?_, ?_, ?_⟩ <;>
      (cases resp <;> simp only [OrderKuotaV2.getToken] <;> (repeat' split) <;> rfl)
  · intro s tok
    exact ⟨rfl, rfl, rfl⟩
